import Mathlib

/-!
Verification of the TakeYourTime VS Code extension core.

A shallow embedding, in Lean 4, of the stateful core of the TakeYourTime
extension: the webview panel registry (`TYTWebviewManager`), the content
renderer (`WebviewContentGenerator`), the configuration loader
(`ExtensionConfig`) and the command handler (`CommandHandler`).

Conventions of the embedding:
* JavaScript strings are Lean `String`s; character-level reasoning goes
  through `String.data : String → List Char`.
* JavaScript template literals become explicit `++` concatenations, with the
  literal fragments transcribed verbatim (braces are written with the `\x7b`
  and `\x7d` escapes, newlines with `\n`).
* Host APIs (`vscode.*`) are not code of this repository; where a host value
  flows into repository code it is a parameter of the embedding (e.g. the
  webview's `cspSource` string, the `asWebviewUri` output for the two media
  resources, the raw settings read from `workspace.getConfiguration`, the
  random samples consumed by `Math.random`, and the URL validity check used
  by the configuration schema).
* The registry's JavaScript `Map` is an association list in insertion order,
  which matches the iteration order guaranteed by `Map`.

The file is organised as: all definitions first, then all theorems.
-/

/-! ## Character and string helpers -/

/-- The double-quote character `"` (written by code point to keep string
scanning simple). -/
def quoteChar : Char := Char.ofNat 34

/-- The apostrophe character `'` (written by code point). -/
def aposChar : Char := Char.ofNat 39

/-- Model of `String.prototype.replace(/c/g, rep)` for a single-character
pattern `c`: every occurrence of `c` is replaced by the fragment `rep`,
all other characters are kept. -/
def replaceAll (c : Char) (rep : List Char) : List Char → List Char
  | [] => []
  | d :: l => (if d = c then rep else [d]) ++ replaceAll c rep l

/-- Decimal value of a digit string, accumulator style; used to invert
`Nat.repr` (the embedding of JavaScript number-to-string interpolation). -/
def digitsVal : List Char → Nat → Nat
  | [], a => a
  | c :: l, a => digitsVal l (10 * a + (c.toNat - 48))

/-- Model of `String.prototype.includes`: substring containment. -/
def includes (s pat : String) : Bool :=
  decide (pat.data <:+: s.data)

/-- Model of `String.prototype.toLowerCase`, character-wise.  (Lean's
`Char.toLower` lowercases the ASCII range, which covers every character the
denylist comparison can distinguish.) -/
def toLowerCase (s : String) : String :=
  ⟨s.data.map Char.toLower⟩

/-- A configured game preset (`GamePresetSchema` of the configuration
loader): a `name`/`url` pair. -/
structure GamePreset where
  name : String
  url : String
deriving DecidableEq

/-- The two media resources handed to the renderer
(WebviewManager.ts:36-39).  The source stores `vscode.Uri`s and converts
them with `webview.asWebviewUri(...).toString()` at the use site inside the
renderer; as both steps are host API, the embedding carries the final URI
strings. -/
structure Resources where
  smbBg : String
  crazyGamesBg : String

/-- Model (event-free) of `vscode.Uri.parse(value, true)` (host API, not
repository code): returns the scheme when the input parses strictly, `none`
when strict parsing throws.  The scheme is the maximal prefix free of
`:`/`/`/`?`/`#`, which must be followed by `:` and match the pattern
`\w[\w+.-]*`. -/
def isWordChar (c : Char) : Bool :=
  c.isAlpha || c.isDigit || c == '_'

/-- Scheme well-formedness for `uriSchemeStrict` (vscode's
`/^\w[\w\d+.-]*$/`). -/
def schemeValid : List Char → Bool
  | [] => false
  | c :: rest => isWordChar c && rest.all (fun d => isWordChar d || d == '+' || d == '.' || d == '-')

/-- See `isWordChar`: the scheme of `vscode.Uri.parse(value, true)`, or
`none` when strict parsing fails. -/
def uriSchemeStrict (s : String) : Option String :=
  let notDelim : Char → Bool := fun c => !(c == ':' || c == '/' || c == '?' || c == '#')
  match s.data.dropWhile notDelim with
  | ':' :: _ =>
    let pre := s.data.takeWhile notDelim
    if schemeValid pre then some ⟨pre⟩ else none
  | _ => none

/-! ## Absence of a pattern in generated markup

`CleanLtI l` says the two-character pattern `<i` does not occur in `l` and
`l` does not end in `<`.  The predicate is closed under concatenation and is
the invariant used to show a generated document contains no `<iframe` tag. -/

/-- No occurrence of `<` followed by `i`, and no trailing `<`. -/
def CleanLtI (l : List Char) : Prop :=
  ¬ (['<', 'i'] <:+: l) ∧ l.getLast? ≠ some '<'

/-- Executable check deciding `CleanLtI` (soundness is proved below); used
to discharge the condition on concrete template fragments. -/
def cleanB : List Char → Bool
  | [] => true
  | ['<'] => false
  | '<' :: 'i' :: _ => false
  | _ :: rest => cleanB rest

/-- The predicate `CleanLtI` at the `String` level. -/
def CleanS (s : String) : Prop :=
  CleanLtI s.data

/-- The host (authority) component of an absolute URL: what stands between
the `://` separator and the next `/`, `?` or `#`.  This is a spec-side
notion (the specification speaks of "the target URL's host"); the source
never computes it. -/
def hostOf (s : String) : String :=
  let afterScheme := s.data.dropWhile (fun c => !(c == ':'))
  match afterScheme with
  | ':' :: '/' :: '/' :: rest =>
    ⟨rest.takeWhile (fun c => !(c == '/' || c == '?' || c == '#'))⟩
  | _ => ""

/-- The media-resource URI strings contain no `<` (true of every
`asWebviewUri` output; hypothesis of the markup lemmas). -/
def ResourcesClean (resources : Option Resources) : Prop :=
  match resources with
  | none => True
  | some r => '<' ∉ r.smbBg.data ∧ '<' ∉ r.crazyGamesBg.data

/-! ## WebviewContentGenerator (src/webview/WebviewContentGenerator.ts) -/

namespace WebviewContentGenerator

/-- Source `WebviewContentGenerator.escapeHtml` (WebviewContentGenerator.ts:408-415),
character level: the five sequential global replaces
`&→&amp;`, `<→&lt;`, `>→&gt;`, `"→&quot;`, `'→&#039;`, applied in source
order (`&` first, `'` last). -/
def escapeChars (l : List Char) : List Char :=
  replaceAll aposChar ("&#039;".data)
    (replaceAll quoteChar ("&quot;".data)
      (replaceAll '>' ("&gt;".data)
        (replaceAll '<' ("&lt;".data)
          (replaceAll '&' ("&amp;".data) l))))

/-- Source `WebviewContentGenerator.escapeHtml` (WebviewContentGenerator.ts:408-415). -/
def escapeHtml (s : String) : String :=
  ⟨escapeChars s.data⟩

/-- The per-character escape code underlying `escapeHtml`: each of the five
reserved markup characters maps to its entity, every other character maps
to itself. -/
def escChar (c : Char) : List Char :=
  if c = '&' then "&amp;".data
  else if c = '<' then "&lt;".data
  else if c = '>' then "&gt;".data
  else if c = quoteChar then "&quot;".data
  else if c = aposChar then "&#039;".data
  else [c]

/-- Decoder for the image of `escapeChars`: recognises the five entities
(each introduced by `&`) and passes every other character through.  A stray
`&` that does not open one of the five entities is rejected. -/
def decode : List Char → Option (List Char)
  | [] => some []
  | '&' :: 'a' :: 'm' :: 'p' :: ';' :: r => (decode r).map (fun l => '&' :: l)
  | '&' :: 'l' :: 't' :: ';' :: r => (decode r).map (fun l => '<' :: l)
  | '&' :: 'g' :: 't' :: ';' :: r => (decode r).map (fun l => '>' :: l)
  | '&' :: 'q' :: 'u' :: 'o' :: 't' :: ';' :: r => (decode r).map (fun l => quoteChar :: l)
  | '&' :: '#' :: '0' :: '3' :: '9' :: ';' :: r => (decode r).map (fun l => aposChar :: l)
  | '&' :: _ => none
  | c :: rest => (decode rest).map (fun l => c :: l)

/-- The nonce alphabet of `getNonce` (WebviewContentGenerator.ts:401). -/
def possible : String :=
  "ABCDEFGHIJKLMNOPQRSTUVWXYZabcdefghijklmnopqrstuvwxyz0123456789"

/-- Source `WebviewContentGenerator.getNonce` (WebviewContentGenerator.ts:399-406).
The thirty-two samples drawn from `Math.random` are made explicit: `rand i`
is the value `Math.floor(Math.random() * possible.length)` of iteration `i`
(reduced `% 62` to keep the model total on arbitrary sample streams). -/
def getNonce (rand : Nat → Nat) : String :=
  ⟨(List.range 32).map (fun i => possible.data.getD (rand i % 62) 'A')⟩

/-- Source `WebviewContentGenerator.generateCSP` (WebviewContentGenerator.ts:166-175);
the source's array-`join('; ')` written as one concatenation. -/
def generateCSP (cspSource : String) : String :=
  "default-src 'none'; script-src 'unsafe-inline' 'unsafe-eval'; style-src 'unsafe-inline'; img-src "
    ++ cspSource ++ " https: data:; frame-src * https: http:; font-src https: data:"

/-- Source `WebviewContentGenerator.getStyles` (WebviewContentGenerator.ts:177-296),
transcribed verbatim. -/
def getStyles : String :=
  "\n      :root \x7b\n        --header-height: 48px;\n        --bg-color: var(--vscode-editor-background);\n        --text-color: var(--vscode-editor-foreground);\n        --border-color: var(--vscode-widget-border);\n      \x7d\n\n      * \x7b\n        margin: 0;\n        padding: 0;\n        box-sizing: border-box;\n      \x7d\n      \n      html, body \x7b\n        width: 100%;\n        height: 100%;\n        overflow: hidden;\n        background-color: var(--bg-color);\n        color: var(--text-color);\n        font-family: var(--vscode-font-family);\n      \x7d\n\n      .toolbar \x7b\n        height: var(--header-height);\n        display: flex;\n        align-items: center;\n        justify-content: space-between;\n        padding: 0 16px;\n        border-bottom: 1px solid var(--border-color);\n        background-color: var(--vscode-editorHeader-background);\n      \x7d\n\n      .title \x7b\n        font-weight: 600;\n        font-size: 14px;\n        display: flex;\n        align-items: center;\n        gap: 8px;\n      \x7d\n\n      .actions \x7b\n        display: flex;\n        gap: 8px;\n      \x7d\n\n      .btn \x7b\n        background: var(--vscode-button-secondaryBackground);\n        color: var(--vscode-button-secondaryForeground);\n        border: none;\n        padding: 4px 12px;\n        border-radius: 2px;\n        cursor: pointer;\n        font-family: inherit;\n        font-size: 12px;\n        display: flex;\n        align-items: center;\n        gap: 6px;\n        transition: opacity 0.2s;\n      \x7d\n\n      .btn:hover \x7b\n        opacity: 0.9;\n        background: var(--vscode-button-secondaryHoverBackground);\n      \x7d\n\n      .game-container \x7b\n        width: 100%;\n        height: calc(100% - var(--header-height));\n        position: relative;\n        background: #000;\n      \x7d\n\n      iframe \x7b\n        width: 100%;\n        height: 100%;\n        border: none;\n        background: #fff;\n      \x7d\n\n      #loading-overlay \x7b\n        position: absolute;\n        top: 0;\n        left: 0;\n        width: 100%;\n        height: 100%;\n        background: var(--bg-color);\n        display: flex;\n        flex-direction: column;\n        align-items: center;\n        justify-content: center;\n        gap: 16px;\n        z-index: 10;\n        pointer-events: none;\n        opacity: 1;\n        transition: opacity 0.5s ease-out;\n      \x7d\n\n      #loading-overlay.hidden \x7b\n        opacity: 0;\n      \x7d\n\n      .loader \x7b\n        width: 32px;\n        height: 32px;\n        border: 3px solid var(--vscode-progressBar-background);\n        border-bottom-color: transparent;\n        border-radius: 50%;\n        display: inline-block;\n        box-sizing: border-box;\n        animation: rotation 1s linear infinite;\n      \x7d\n\n      @keyframes rotation \x7b\n        0% \x7b transform: rotate(0deg); \x7d\n        100% \x7b transform: rotate(360deg); \x7d\n      \x7d\n    "

/-- Source `WebviewContentGenerator.getScript` (WebviewContentGenerator.ts:298-397),
transcribed verbatim; the single interpolation point
`'${this.escapeHtml(gameUrl)}'` becomes the middle operand. -/
def getScript (gameUrl : String) : String :=
  "\n      const vscode = acquireVsCodeApi();\n      const gameFrame = document.getElementById('game-frame');\n      let loader = document.getElementById('loading-overlay');\n      \n      // Handle iframe load\n      if (gameFrame) \x7b\n          gameFrame.onload = () => \x7b\n            // If loader got removed or lost reference, try to find it again\n            if (!loader) loader = document.getElementById('loading-overlay');\n            \n            if (loader) \x7b\n                // Short delay to ensure render\n                setTimeout(() => \x7b\n                loader.classList.add('hidden');\n                // Remove from DOM after transition\n                setTimeout(() => \x7b\n                    if(loader && loader.parentNode) \x7b\n                        loader.parentNode.removeChild(loader);\n                        loader = null; // Clear reference\n                    \x7d\n                \x7d, 500);\n                \x7d, 1000);\n            \x7d\n          \x7d;\n      \x7d\n\n      function reloadGame() \x7b\n        if (gameFrame) \x7b\n          showLoader();\n          gameFrame.src = gameFrame.src;\n        \x7d else \x7b\n          // If we are in blocked view, reload just re-requests the same URL via extension\n          // which effectively refreshes the view\n          vscode.postMessage(\x7b\n             command: 'switchGame',\n             // we need the current url, but we don't store it in a var easily here\n             // assume the user just clicked reload on the current view\n             url: '"
    ++ escapeHtml gameUrl ++
  "' \n          \x7d);\n        \x7d\n      \x7d\n\n      function switchGame(url) \x7b\n        vscode.postMessage(\x7b\n           command: 'switchGame',\n           url: url\n        \x7d);\n      \x7d\n      \n      function showLoader() \x7b\n           // If loader doesn't exist, create it\n           if (!document.getElementById('loading-overlay')) \x7b\n             const overlay = document.createElement('div');\n             overlay.id = 'loading-overlay';\n             overlay.innerHTML = '<div class=\"loader\"></div><div>Loading Game Arcade...</div>';\n             // Apply styles inline to match initial state\n             overlay.style.position = 'absolute';\n             overlay.style.top = '0';\n             overlay.style.left = '0';\n             overlay.style.width = '100%';\n             overlay.style.height = '100%';\n             overlay.style.background = 'var(--bg-color)';\n             overlay.style.display = 'flex';\n             overlay.style.flexDirection = 'column';\n             overlay.style.alignItems = 'center';\n             overlay.style.justifyContent = 'center';\n             overlay.style.gap = '16px';\n             overlay.style.zIndex = '10';\n             overlay.style.transition = 'opacity 0.5s ease-out';\n             \n             const container = document.querySelector('.game-container');\n             if (container) \x7b\n                container.appendChild(overlay);\n                loader = overlay;\n             \x7d\n           \x7d else \x7b\n             // It exists, make sure it's visible\n             loader = document.getElementById('loading-overlay');\n             if (loader) \x7b\n                loader.classList.remove('hidden');\n                loader.style.opacity = '1';\n             \x7d\n           \x7d\n      \x7d\n\n      function openExternal(url) \x7b\n        const targetUrl = url || (gameFrame ? gameFrame.src : null);\n        if (targetUrl) \x7b\n            vscode.postMessage(\x7b\n            command: 'openExternal',\n            url: targetUrl\n            \x7d);\n        \x7d\n      \x7d\n      \n      console.log('TYT: Webview loaded successfully');\n    "

/-- Source `normalizedUrl.includes('smbgames.be') || normalizedUrl.includes('mario')`
(WebviewContentGenerator.ts:11-12). -/
def isSmbGame (gameUrl : String) : Bool :=
  includes (toLowerCase gameUrl) "smbgames.be" || includes (toLowerCase gameUrl) "mario"

/-- Source `normalizedUrl.includes('crazygames.com')` (WebviewContentGenerator.ts:13). -/
def isCrazyGame (gameUrl : String) : Bool :=
  includes (toLowerCase gameUrl) "crazygames.com"

/-- Source `isBlocked = isSmbGame || isCrazyGame` (WebviewContentGenerator.ts:14). -/
def isBlocked (gameUrl : String) : Bool :=
  isSmbGame gameUrl || isCrazyGame gameUrl

/-- One dropdown option (WebviewContentGenerator.ts:17-19). -/
def optionTag (gameUrl : String) (preset : GamePreset) : String :=
  "<option value=\"" ++ escapeHtml preset.url ++ "\" "
    ++ (if preset.url = gameUrl then "selected" else "") ++ ">"
    ++ escapeHtml preset.name ++ "</option>"

/-- The `bgUri`/`titleText` selection of the blocked branch
(WebviewContentGenerator.ts:24-33). -/
def blockedBg (gameUrl : String) (resources : Option Resources) : String × String :=
  if isSmbGame gameUrl && resources.isSome then
    ((resources.map (fun r => r.smbBg)).getD "", "Mario Games Preview")
  else if isCrazyGame gameUrl && resources.isSome then
    ((resources.map (fun r => r.crazyGamesBg)).getD "", "CrazyGames Preview")
  else ("", "External Browser Required")

/-- The `bgStyle` ternary (WebviewContentGenerator.ts:35-41). -/
def bgStyleFor (bgUri : String) : String :=
  if bgUri ≠ "" then
    "\n            background-image: url('" ++ bgUri
      ++ "'); \n            background-size: cover; \n            background-position: center;\n            background-repeat: no-repeat;\n            background-color: #1e1e1e;\n        "
  else "background-color: #1e1e1e;"

/-- The blocked-branch `mainContent` (WebviewContentGenerator.ts:43-58). -/
def mainContentBlocked (gameUrl : String) (resources : Option Resources) : String :=
  let bgUri := (blockedBg gameUrl resources).1
  let titleText := (blockedBg gameUrl resources).2
  let bgStyle := bgStyleFor bgUri
  "\n        <div class=\"blocked-container\" style=\"" ++ bgStyle
    ++ "\">\n            <div class=\"blocked-overlay\">\n                <div class=\"blocked-content\">\n                    <div class=\"blocked-icon\">⚠️</div>\n                    <h2>"
    ++ titleText
    ++ "</h2>\n                    <p>This game website cannot be played directly inside VS Code.</p>\n                    <button class=\"btn-primary\" onclick=\"openExternal('"
    ++ escapeHtml gameUrl
    ++ "')\">\n                        🚀 Open in Browser\n                    </button>\n                    <div style=\"margin-top: 10px; font-size: 0.8em; opacity: 0.7\">\n                        "
    ++ escapeHtml gameUrl
    ++ "\n                    </div>\n                </div>\n            </div>\n        </div>"

/-- The embed-branch `mainContent` (WebviewContentGenerator.ts:60-72). -/
def mainContentIframe (gameUrl : String) : String :=
  "\n        <iframe \n          id=\"game-frame\"\n          src=\"" ++ escapeHtml gameUrl
    ++ "\" \n          frameborder=\"0\" \n          allowfullscreen\n          sandbox=\"allow-scripts allow-same-origin allow-forms allow-popups\"\n        ></iframe>\n        \n        <div id=\"loading-overlay\">\n          <div class=\"loader\"></div>\n          <div>Loading Game Arcade...</div>\n        </div>"

/-- Source `WebviewContentGenerator.generate` (WebviewContentGenerator.ts:7-164).
The `webview` argument enters only through `generateCSP` (its `cspSource`)
and through `asWebviewUri` on the two resources (already applied in
`Resources`); the fresh nonce drawn by `getNonce` is the `nonce` argument. -/
def generate (cspSource : String) (gameUrl : String) (gamePresets : List GamePreset)
    (resources : Option Resources) (nonce : String) : String :=
  let csp := generateCSP cspSource
  let options := String.join (gamePresets.map (optionTag gameUrl))
  let mainContent :=
    if isBlocked gameUrl then mainContentBlocked gameUrl resources
    else mainContentIframe gameUrl
  "<!DOCTYPE html>\n<html lang=\"en\">\n<head>\n  <meta charset=\"UTF-8\">\n  <meta name=\"viewport\" content=\"width=device-width, initial-scale=1.0\">\n  <meta http-equiv=\"Content-Security-Policy\" content=\""
    ++ csp
    ++ "\">\n  <title>Take Your Time</title>\n  <style>\n    "
    ++ getStyles
    ++ "\n    \n    .blocked-container \x7b\n        width: 100%;\n        height: 100%;\n        position: relative;\n    \x7d\n    .blocked-overlay \x7b\n        width: 100%;\n        height: 100%;\n        background: radial-gradient(circle, rgba(0,0,0,0.4) 0%, rgba(0,0,0,0.8) 100%);\n        display: flex;\n        align-items: center;\n        justify-content: center;\n        padding: 20px;\n    \x7d\n    .blocked-content \x7b\n        text-align: center;\n        padding: 40px;\n        max-width: 600px;\n        background: rgba(30, 30, 30, 0.9);\n        border-radius: 12px;\n        backdrop-filter: blur(10px);\n        border: 1px solid rgba(255, 255, 255, 0.1);\n        box-shadow: 0 8px 32px rgba(0, 0, 0, 0.5);\n    \x7d\n    .blocked-icon \x7b\n        font-size: 48px;\n        margin-bottom: 16px;\n    \x7d\n    .btn-primary \x7b\n        margin-top: 24px;\n        padding: 12px 24px;\n        font-size: 16px;\n        font-weight: 600;\n        background: var(--vscode-button-background);\n        color: var(--vscode-button-foreground);\n        border: none;\n        border-radius: 4px;\n        cursor: pointer;\n        transition: transform 0.1s;\n    \x7d\n    .btn-primary:hover \x7b\n        background: var(--vscode-button-hoverBackground);\n        transform: scale(1.05);\n    \x7d\n    h2 \x7b \n        margin-bottom: 16px; \n        font-size: 24px;\n        font-weight: 500;\n    \x7d\n    p \x7b \n        font-size: 16px;\n        line-height: 1.5;\n        opacity: 0.9; \n    \x7d\n  </style>\n</head>\n<body>\n  <div class=\"toolbar\">\n    <div class=\"title\">\n      <span>🎮</span>\n      <select id=\"game-selector\" onchange=\"switchGame(this.value)\" style=\"margin-left: 8px; padding: 4px; border-radius: 4px; background: var(--vscode-dropdown-background); color: var(--vscode-dropdown-foreground); border: 1px solid var(--vscode-dropdown-border);\">\n        "
    ++ options
    ++ "\n      </select>\n    </div>\n    <div class=\"actions\">\n      <button class=\"btn\" onclick=\"reloadGame()\">🔄 Reload</button>\n      <button class=\"btn\" onclick=\"openExternal('"
    ++ escapeHtml gameUrl
    ++ "')\">🌐 Open in Browser</button>\n    </div>\n  </div>\n  \n  <div class=\"game-container\">\n    "
    ++ mainContent
    ++ "\n  </div>\n\n  <script nonce=\""
    ++ nonce
    ++ "\">\n    "
    ++ getScript gameUrl
    ++ "\n  </script>\n</body>\n</html>"

/-- Everything of `generate`'s output that precedes the interpolated nonce
(a verification artifact for the determinism-up-to-nonce property; not a
source function). -/
def generatePreNonce (cspSource : String) (gameUrl : String) (gamePresets : List GamePreset)
    (resources : Option Resources) : String :=
  let csp := generateCSP cspSource
  let options := String.join (gamePresets.map (optionTag gameUrl))
  let mainContent :=
    if isBlocked gameUrl then mainContentBlocked gameUrl resources
    else mainContentIframe gameUrl
  "<!DOCTYPE html>\n<html lang=\"en\">\n<head>\n  <meta charset=\"UTF-8\">\n  <meta name=\"viewport\" content=\"width=device-width, initial-scale=1.0\">\n  <meta http-equiv=\"Content-Security-Policy\" content=\""
    ++ csp
    ++ "\">\n  <title>Take Your Time</title>\n  <style>\n    "
    ++ getStyles
    ++ "\n    \n    .blocked-container \x7b\n        width: 100%;\n        height: 100%;\n        position: relative;\n    \x7d\n    .blocked-overlay \x7b\n        width: 100%;\n        height: 100%;\n        background: radial-gradient(circle, rgba(0,0,0,0.4) 0%, rgba(0,0,0,0.8) 100%);\n        display: flex;\n        align-items: center;\n        justify-content: center;\n        padding: 20px;\n    \x7d\n    .blocked-content \x7b\n        text-align: center;\n        padding: 40px;\n        max-width: 600px;\n        background: rgba(30, 30, 30, 0.9);\n        border-radius: 12px;\n        backdrop-filter: blur(10px);\n        border: 1px solid rgba(255, 255, 255, 0.1);\n        box-shadow: 0 8px 32px rgba(0, 0, 0, 0.5);\n    \x7d\n    .blocked-icon \x7b\n        font-size: 48px;\n        margin-bottom: 16px;\n    \x7d\n    .btn-primary \x7b\n        margin-top: 24px;\n        padding: 12px 24px;\n        font-size: 16px;\n        font-weight: 600;\n        background: var(--vscode-button-background);\n        color: var(--vscode-button-foreground);\n        border: none;\n        border-radius: 4px;\n        cursor: pointer;\n        transition: transform 0.1s;\n    \x7d\n    .btn-primary:hover \x7b\n        background: var(--vscode-button-hoverBackground);\n        transform: scale(1.05);\n    \x7d\n    h2 \x7b \n        margin-bottom: 16px; \n        font-size: 24px;\n        font-weight: 500;\n    \x7d\n    p \x7b \n        font-size: 16px;\n        line-height: 1.5;\n        opacity: 0.9; \n    \x7d\n  </style>\n</head>\n<body>\n  <div class=\"toolbar\">\n    <div class=\"title\">\n      <span>🎮</span>\n      <select id=\"game-selector\" onchange=\"switchGame(this.value)\" style=\"margin-left: 8px; padding: 4px; border-radius: 4px; background: var(--vscode-dropdown-background); color: var(--vscode-dropdown-foreground); border: 1px solid var(--vscode-dropdown-border);\">\n        "
    ++ options
    ++ "\n      </select>\n    </div>\n    <div class=\"actions\">\n      <button class=\"btn\" onclick=\"reloadGame()\">🔄 Reload</button>\n      <button class=\"btn\" onclick=\"openExternal('"
    ++ escapeHtml gameUrl
    ++ "')\">🌐 Open in Browser</button>\n    </div>\n  </div>\n  \n  <div class=\"game-container\">\n    "
    ++ mainContent
    ++ "\n  </div>\n\n  <script nonce=\""

/-- Everything of `generate`'s output that follows the interpolated nonce
(verification artifact, see `generatePreNonce`). -/
def generatePostNonce (gameUrl : String) : String :=
  "\">\n    " ++ getScript gameUrl ++ "\n  </script>\n</body>\n</html>"

/-- Everything of `generate`'s output that precedes the `mainContent`
interpolation (verification artifact). -/
def generatePreMain (cspSource : String) (gameUrl : String)
    (gamePresets : List GamePreset) : String :=
  "<!DOCTYPE html>\n<html lang=\"en\">\n<head>\n  <meta charset=\"UTF-8\">\n  <meta name=\"viewport\" content=\"width=device-width, initial-scale=1.0\">\n  <meta http-equiv=\"Content-Security-Policy\" content=\""
    ++ generateCSP cspSource
    ++ "\">\n  <title>Take Your Time</title>\n  <style>\n    "
    ++ getStyles
    ++ "\n    \n    .blocked-container \x7b\n        width: 100%;\n        height: 100%;\n        position: relative;\n    \x7d\n    .blocked-overlay \x7b\n        width: 100%;\n        height: 100%;\n        background: radial-gradient(circle, rgba(0,0,0,0.4) 0%, rgba(0,0,0,0.8) 100%);\n        display: flex;\n        align-items: center;\n        justify-content: center;\n        padding: 20px;\n    \x7d\n    .blocked-content \x7b\n        text-align: center;\n        padding: 40px;\n        max-width: 600px;\n        background: rgba(30, 30, 30, 0.9);\n        border-radius: 12px;\n        backdrop-filter: blur(10px);\n        border: 1px solid rgba(255, 255, 255, 0.1);\n        box-shadow: 0 8px 32px rgba(0, 0, 0, 0.5);\n    \x7d\n    .blocked-icon \x7b\n        font-size: 48px;\n        margin-bottom: 16px;\n    \x7d\n    .btn-primary \x7b\n        margin-top: 24px;\n        padding: 12px 24px;\n        font-size: 16px;\n        font-weight: 600;\n        background: var(--vscode-button-background);\n        color: var(--vscode-button-foreground);\n        border: none;\n        border-radius: 4px;\n        cursor: pointer;\n        transition: transform 0.1s;\n    \x7d\n    .btn-primary:hover \x7b\n        background: var(--vscode-button-hoverBackground);\n        transform: scale(1.05);\n    \x7d\n    h2 \x7b \n        margin-bottom: 16px; \n        font-size: 24px;\n        font-weight: 500;\n    \x7d\n    p \x7b \n        font-size: 16px;\n        line-height: 1.5;\n        opacity: 0.9; \n    \x7d\n  </style>\n</head>\n<body>\n  <div class=\"toolbar\">\n    <div class=\"title\">\n      <span>🎮</span>\n      <select id=\"game-selector\" onchange=\"switchGame(this.value)\" style=\"margin-left: 8px; padding: 4px; border-radius: 4px; background: var(--vscode-dropdown-background); color: var(--vscode-dropdown-foreground); border: 1px solid var(--vscode-dropdown-border);\">\n        "
    ++ String.join (gamePresets.map (optionTag gameUrl))
    ++ "\n      </select>\n    </div>\n    <div class=\"actions\">\n      <button class=\"btn\" onclick=\"reloadGame()\">🔄 Reload</button>\n      <button class=\"btn\" onclick=\"openExternal('"
    ++ escapeHtml gameUrl
    ++ "')\">🌐 Open in Browser</button>\n    </div>\n  </div>\n  \n  <div class=\"game-container\">\n    "

/-- Everything of `generate`'s output that follows the `mainContent`
interpolation (verification artifact). -/
def generatePostMain (gameUrl : String) (nonce : String) : String :=
  "\n  </div>\n\n  <script nonce=\"" ++ nonce ++ "\">\n    "
    ++ getScript gameUrl ++ "\n  </script>\n</body>\n</html>"

/-! ### The template factored through its escaped inputs

`generateFromEscaped` is a verification artifact: the same template text as
`generate`, but consuming the externally-sourced strings (target URL, preset
URLs, preset labels) only in already-escaped form.  The theorem
`generate = generateFromEscaped ∘ escapeHtml…` then certifies that every
interpolation point of those strings in `generate` goes through
`escapeHtml`. -/

/-- One dropdown option built from pre-escaped url/label and the computed
`selected` flag. -/
def optionFromEscaped (escapedUrl : String) (selected : Bool) (escapedName : String) : String :=
  "<option value=\"" ++ escapedUrl ++ "\" "
    ++ (if selected then "selected" else "") ++ ">"
    ++ escapedName ++ "</option>"

/-- Blocked-branch content from the pre-escaped target URL. -/
def mainContentBlockedFromEscaped (escapedUrl bgUri titleText : String) : String :=
  "\n        <div class=\"blocked-container\" style=\"" ++ bgStyleFor bgUri
    ++ "\">\n            <div class=\"blocked-overlay\">\n                <div class=\"blocked-content\">\n                    <div class=\"blocked-icon\">⚠️</div>\n                    <h2>"
    ++ titleText
    ++ "</h2>\n                    <p>This game website cannot be played directly inside VS Code.</p>\n                    <button class=\"btn-primary\" onclick=\"openExternal('"
    ++ escapedUrl
    ++ "')\">\n                        🚀 Open in Browser\n                    </button>\n                    <div style=\"margin-top: 10px; font-size: 0.8em; opacity: 0.7\">\n                        "
    ++ escapedUrl
    ++ "\n                    </div>\n                </div>\n            </div>\n        </div>"

/-- Embed-branch content from the pre-escaped target URL. -/
def mainContentIframeFromEscaped (escapedUrl : String) : String :=
  "\n        <iframe \n          id=\"game-frame\"\n          src=\"" ++ escapedUrl
    ++ "\" \n          frameborder=\"0\" \n          allowfullscreen\n          sandbox=\"allow-scripts allow-same-origin allow-forms allow-popups\"\n        ></iframe>\n        \n        <div id=\"loading-overlay\">\n          <div class=\"loader\"></div>\n          <div>Loading Game Arcade...</div>\n        </div>"

/-- Control script from the pre-escaped target URL. -/
def getScriptFromEscaped (escapedUrl : String) : String :=
  "\n      const vscode = acquireVsCodeApi();\n      const gameFrame = document.getElementById('game-frame');\n      let loader = document.getElementById('loading-overlay');\n      \n      // Handle iframe load\n      if (gameFrame) \x7b\n          gameFrame.onload = () => \x7b\n            // If loader got removed or lost reference, try to find it again\n            if (!loader) loader = document.getElementById('loading-overlay');\n            \n            if (loader) \x7b\n                // Short delay to ensure render\n                setTimeout(() => \x7b\n                loader.classList.add('hidden');\n                // Remove from DOM after transition\n                setTimeout(() => \x7b\n                    if(loader && loader.parentNode) \x7b\n                        loader.parentNode.removeChild(loader);\n                        loader = null; // Clear reference\n                    \x7d\n                \x7d, 500);\n                \x7d, 1000);\n            \x7d\n          \x7d;\n      \x7d\n\n      function reloadGame() \x7b\n        if (gameFrame) \x7b\n          showLoader();\n          gameFrame.src = gameFrame.src;\n        \x7d else \x7b\n          // If we are in blocked view, reload just re-requests the same URL via extension\n          // which effectively refreshes the view\n          vscode.postMessage(\x7b\n             command: 'switchGame',\n             // we need the current url, but we don't store it in a var easily here\n             // assume the user just clicked reload on the current view\n             url: '"
    ++ escapedUrl ++
  "' \n          \x7d);\n        \x7d\n      \x7d\n\n      function switchGame(url) \x7b\n        vscode.postMessage(\x7b\n           command: 'switchGame',\n           url: url\n        \x7d);\n      \x7d\n      \n      function showLoader() \x7b\n           // If loader doesn't exist, create it\n           if (!document.getElementById('loading-overlay')) \x7b\n             const overlay = document.createElement('div');\n             overlay.id = 'loading-overlay';\n             overlay.innerHTML = '<div class=\"loader\"></div><div>Loading Game Arcade...</div>';\n             // Apply styles inline to match initial state\n             overlay.style.position = 'absolute';\n             overlay.style.top = '0';\n             overlay.style.left = '0';\n             overlay.style.width = '100%';\n             overlay.style.height = '100%';\n             overlay.style.background = 'var(--bg-color)';\n             overlay.style.display = 'flex';\n             overlay.style.flexDirection = 'column';\n             overlay.style.alignItems = 'center';\n             overlay.style.justifyContent = 'center';\n             overlay.style.gap = '16px';\n             overlay.style.zIndex = '10';\n             overlay.style.transition = 'opacity 0.5s ease-out';\n             \n             const container = document.querySelector('.game-container');\n             if (container) \x7b\n                container.appendChild(overlay);\n                loader = overlay;\n             \x7d\n           \x7d else \x7b\n             // It exists, make sure it's visible\n             loader = document.getElementById('loading-overlay');\n             if (loader) \x7b\n                loader.classList.remove('hidden');\n                loader.style.opacity = '1';\n             \x7d\n           \x7d\n      \x7d\n\n      function openExternal(url) \x7b\n        const targetUrl = url || (gameFrame ? gameFrame.src : null);\n        if (targetUrl) \x7b\n            vscode.postMessage(\x7b\n            command: 'openExternal',\n            url: targetUrl\n            \x7d);\n        \x7d\n      \x7d\n      \n      console.log('TYT: Webview loaded successfully');\n    "

/-- The whole document from pre-escaped inputs: `escapedUrl` replaces every
`escapeHtml(gameUrl)`, `opts` carries per-preset
`(escapedUrl, selected, escapedName)` triples, and the raw-host inputs
(`bgUri`, `titleText`, `nonce`, `cspSource`) are passed through. -/
def generateFromEscaped (cspSource escapedUrl : String)
    (opts : List (String × Bool × String)) (blocked : Bool)
    (bgUri titleText nonce : String) : String :=
  "<!DOCTYPE html>\n<html lang=\"en\">\n<head>\n  <meta charset=\"UTF-8\">\n  <meta name=\"viewport\" content=\"width=device-width, initial-scale=1.0\">\n  <meta http-equiv=\"Content-Security-Policy\" content=\""
    ++ generateCSP cspSource
    ++ "\">\n  <title>Take Your Time</title>\n  <style>\n    "
    ++ getStyles
    ++ "\n    \n    .blocked-container \x7b\n        width: 100%;\n        height: 100%;\n        position: relative;\n    \x7d\n    .blocked-overlay \x7b\n        width: 100%;\n        height: 100%;\n        background: radial-gradient(circle, rgba(0,0,0,0.4) 0%, rgba(0,0,0,0.8) 100%);\n        display: flex;\n        align-items: center;\n        justify-content: center;\n        padding: 20px;\n    \x7d\n    .blocked-content \x7b\n        text-align: center;\n        padding: 40px;\n        max-width: 600px;\n        background: rgba(30, 30, 30, 0.9);\n        border-radius: 12px;\n        backdrop-filter: blur(10px);\n        border: 1px solid rgba(255, 255, 255, 0.1);\n        box-shadow: 0 8px 32px rgba(0, 0, 0, 0.5);\n    \x7d\n    .blocked-icon \x7b\n        font-size: 48px;\n        margin-bottom: 16px;\n    \x7d\n    .btn-primary \x7b\n        margin-top: 24px;\n        padding: 12px 24px;\n        font-size: 16px;\n        font-weight: 600;\n        background: var(--vscode-button-background);\n        color: var(--vscode-button-foreground);\n        border: none;\n        border-radius: 4px;\n        cursor: pointer;\n        transition: transform 0.1s;\n    \x7d\n    .btn-primary:hover \x7b\n        background: var(--vscode-button-hoverBackground);\n        transform: scale(1.05);\n    \x7d\n    h2 \x7b \n        margin-bottom: 16px; \n        font-size: 24px;\n        font-weight: 500;\n    \x7d\n    p \x7b \n        font-size: 16px;\n        line-height: 1.5;\n        opacity: 0.9; \n    \x7d\n  </style>\n</head>\n<body>\n  <div class=\"toolbar\">\n    <div class=\"title\">\n      <span>🎮</span>\n      <select id=\"game-selector\" onchange=\"switchGame(this.value)\" style=\"margin-left: 8px; padding: 4px; border-radius: 4px; background: var(--vscode-dropdown-background); color: var(--vscode-dropdown-foreground); border: 1px solid var(--vscode-dropdown-border);\">\n        "
    ++ String.join (opts.map (fun o => optionFromEscaped o.1 o.2.1 o.2.2))
    ++ "\n      </select>\n    </div>\n    <div class=\"actions\">\n      <button class=\"btn\" onclick=\"reloadGame()\">🔄 Reload</button>\n      <button class=\"btn\" onclick=\"openExternal('"
    ++ escapedUrl
    ++ "')\">🌐 Open in Browser</button>\n    </div>\n  </div>\n  \n  <div class=\"game-container\">\n    "
    ++ (if blocked then mainContentBlockedFromEscaped escapedUrl bgUri titleText
        else mainContentIframeFromEscaped escapedUrl)
    ++ "\n  </div>\n\n  <script nonce=\""
    ++ nonce
    ++ "\">\n    "
    ++ getScriptFromEscaped escapedUrl
    ++ "\n  </script>\n</body>\n</html>"

end WebviewContentGenerator

/-! ## ExtensionConfig (src/config/ExtensionConfig.ts) -/

namespace ExtensionConfig

/-- The parsed configuration (`ConfigSchema` of ExtensionConfig.ts). -/
structure Config where
  gameUrl : String
  games : List GamePreset
  fallbackUrl : Option String
  enableErrorReporting : Bool
deriving DecidableEq

/-- The raw values `vscode.workspace.getConfiguration('takeYourTime')`
hands to `loadConfig`; each is absent (`undefined`) or present. -/
structure RawSettings where
  gameUrl : Option String
  games : Option (List GamePreset)
  fallbackUrl : Option String
  enableErrorReporting : Option Bool

/-- JavaScript `x || d` for an optional string: `undefined` and the empty
string are falsy. -/
def orFalsy (o : Option String) (d : String) : String :=
  match o with
  | none => d
  | some s => if s = "" then d else s

/-- The four presets pushed when the configured array is empty
(ExtensionConfig.ts:40-47). -/
def defaultGames : List GamePreset :=
  [⟨"OnlineGames.io", "https://onlinegames.io/"⟩,
   ⟨"Playpager", "https://playpager.com/"⟩,
   ⟨"CrazyGames", "https://www.crazygames.com/"⟩,
   ⟨"SMB Games", "https://www.smbgames.be/"⟩]

/-- The hardcoded fallback configuration returned when schema validation
throws (ExtensionConfig.ts:50-58). -/
def defaultConfig : Config :=
  ⟨"https://onlinegames.io/", [⟨"OnlineGames.io", "https://onlinegames.io/"⟩], none, true⟩

/-- Source `ExtensionConfig.loadConfig` (ExtensionConfig.ts:28-60).  Here `isURL` is the
URL well-formedness check of the Zod schema (`z.string().url()`, host
library code): the schema accepts exactly when the effective `gameUrl`,
every preset `url` and a present `fallbackUrl` are valid URLs; on any
failure the `catch` branch returns `defaultConfig`. -/
def loadConfig (isURL : String → Bool) (raw : RawSettings) : Config :=
  let gameUrl := orFalsy raw.gameUrl "https://onlinegames.io/"
  let games0 := raw.games.getD []
  let games := if games0.length = 0 then games0 ++ defaultGames else games0
  let fallbackUrl :=
    match raw.fallbackUrl with
    | none => none
    | some s => if s = "" then none else some s
  let enableErrorReporting := raw.enableErrorReporting.getD true
  if isURL gameUrl && games.all (fun g => isURL g.url)
      && (match fallbackUrl with | none => true | some f => isURL f) then
    ⟨gameUrl, games, fallbackUrl, enableErrorReporting⟩
  else defaultConfig

/-- Source `ExtensionConfig.reload` (ExtensionConfig.ts:78-80): the cached value is
replaced wholesale by a fresh `loadConfig` result; the previous cached
configuration does not enter. -/
def reload (_cached : Config) (isURL : String → Bool) (raw : RawSettings) : Config :=
  loadConfig isURL raw

end ExtensionConfig

/-! ## TYTWebviewManager (src/webview/WebviewManager.ts) -/

namespace TYTWebviewManager

/-- The observable state of one webview panel handle: its tab `title` and
current document `panel.webview.html`. -/
structure PanelData where
  title : String
  html : String

/-- The manager's fields (WebviewManager.ts:10-11): the `panels` map in
insertion order, and `panelCounter`. -/
structure ManagerState where
  panels : List (String × PanelData)
  panelCounter : Nat

/-- The state of a freshly constructed manager. -/
def initialState : ManagerState := ⟨[], 0⟩

/-- JavaScript `Map.prototype.set`: replace in place when the key exists,
append otherwise. -/
def mapSet (k : String) (v : PanelData) (l : List (String × PanelData)) :
    List (String × PanelData) :=
  if l.any (fun e => e.1 == k) then l.map (fun e => if e.1 == k then (k, v) else e)
  else l ++ [(k, v)]

/-- JavaScript `Map.prototype.delete`: remove the entry with the key, if
any. -/
def mapDelete (k : String) (l : List (String × PanelData)) : List (String × PanelData) :=
  l.eraseP (fun e => e.1 == k)

/-- The value returned by one `createGamePanel` call: the updated manager
state, the generated `panelId` and the created panel. -/
structure CreateResult where
  state : ManagerState
  panelId : String
  panel : PanelData

/-- Source `TYTWebviewManager.createGamePanel` (WebviewManager.ts:22-75): bump the
counter, derive id and title, render the initial document from the
configured primary URL, and track the panel.  `cspSource`, `resources` and
the `nonce` random draw are the host-supplied inputs of the render. -/
def createGamePanel (cfg : ExtensionConfig.Config) (cspSource : String)
    (resources : Option Resources) (nonce : String) (st : ManagerState) : CreateResult :=
  let counter := st.panelCounter + 1
  let panelId := "tyt-panel-" ++ Nat.repr counter
  let title :=
    if counter = 1 then "Take Your Time"
    else "Take Your Time (" ++ Nat.repr counter ++ ")"
  let html := WebviewContentGenerator.generate cspSource cfg.gameUrl cfg.games resources nonce
  ⟨⟨mapSet panelId ⟨title, html⟩ st.panels, counter⟩, panelId, ⟨title, html⟩⟩

/-- The `onDidDispose` callback of a panel (WebviewManager.ts:69-71):
`this.panels.delete(panelId)`. -/
def handleDispose (panelId : String) (st : ManagerState) : ManagerState :=
  ⟨mapDelete panelId st.panels, st.panelCounter⟩

/-- Source `TYTWebviewManager.getActivePanels` (WebviewManager.ts:80-82). -/
def getActivePanels (st : ManagerState) : List PanelData :=
  st.panels.map (fun e => e.2)

/-- Source `TYTWebviewManager.disposeAll` (WebviewManager.ts:87-90): every tracked
panel is disposed (each disposal deletes its own entry) and the map is
cleared. -/
def disposeAll (st : ManagerState) : ManagerState :=
  ⟨[], st.panelCounter⟩

/-- A message posted by a panel's embedded content
(`{command, url}`-shaped). -/
structure WebviewMessage where
  command : String
  url : String

/-- The `onDidReceiveMessage` handler of src/webview/WebviewManager.ts:56-66
acting on one panel: given the panel's current document and a message, it
returns the panel's next document together with the list of URLs delegated
to `vscode.env.openExternal`.  This variant performs no scheme check:
`openExternal` always delegates, `switchGame` always re-renders via
`updateContent`. -/
def handleMessage (cfg : ExtensionConfig.Config) (cspSource : String)
    (resources : Option Resources) (nonce : String) (html : String)
    (msg : WebviewMessage) : String × List String :=
  if msg.command = "openExternal" then (html, [msg.url])
  else if msg.command = "switchGame" then
    (WebviewContentGenerator.generate cspSource msg.url cfg.games resources nonce, [])
  else (html, [])

/-- The `onDidReceiveMessage` handler of the validating variant of
`TYTWebviewManager.createGamePanel` (the repository's second copy of
WebviewManager.ts, lines 54-84): both message kinds first parse the URL
strictly (`vscode.Uri.parse(url, true)`), act only when the scheme is
`http` or `https`, and otherwise only log. -/
def handleMessageValidated (cfg : ExtensionConfig.Config) (cspSource : String)
    (resources : Option Resources) (nonce : String) (html : String)
    (msg : WebviewMessage) : String × List String :=
  if msg.command = "openExternal" then
    match uriSchemeStrict msg.url with
    | some scheme =>
      if scheme = "http" ∨ scheme = "https" then (html, [msg.url]) else (html, [])
    | none => (html, [])
  else if msg.command = "switchGame" then
    match uriSchemeStrict msg.url with
    | some scheme =>
      if scheme = "http" ∨ scheme = "https" then
        (WebviewContentGenerator.generate cspSource msg.url cfg.games resources nonce, [])
      else (html, [])
    | none => (html, [])
  else (html, [])

/-- One host-delivered event driving the manager. -/
inductive TraceOp where
  | create (nonce : String)
  | notifyDispose (panelId : String)
  | disposeAllOp

/-- The manager's reaction to one event. -/
def step (cfg : ExtensionConfig.Config) (cspSource : String) (resources : Option Resources)
    (st : ManagerState) : TraceOp → ManagerState
  | .create nonce => (createGamePanel cfg cspSource resources nonce st).state
  | .notifyDispose panelId => handleDispose panelId st
  | .disposeAllOp => disposeAll st

/-- The manager's state after a sequence of events. -/
def run (cfg : ExtensionConfig.Config) (cspSource : String) (resources : Option Resources)
    (st : ManagerState) : List TraceOp → ManagerState
  | [] => st
  | op :: ops => run cfg cspSource resources (step cfg cspSource resources st op) ops

/-- The panel ids generated by the `create` events of a trace, in order. -/
def createdIds (cfg : ExtensionConfig.Config) (cspSource : String)
    (resources : Option Resources) (st : ManagerState) : List TraceOp → List String
  | [] => []
  | TraceOp.create nonce :: ops =>
    (createGamePanel cfg cspSource resources nonce st).panelId ::
      createdIds cfg cspSource resources
        (step cfg cspSource resources st (TraceOp.create nonce)) ops
  | op :: ops => createdIds cfg cspSource resources (step cfg cspSource resources st op) ops

/-- The number of `create` events in a trace. -/
def countCreates : List TraceOp → Nat
  | [] => 0
  | TraceOp.create _ :: ops => countCreates ops + 1
  | _ :: ops => countCreates ops

/-- The title of the `k`-th created panel (1-based), as `createGamePanel`
computes it from the bumped counter. -/
def titleFor (k : Nat) : String :=
  if k = 1 then "Take Your Time" else "Take Your Time (" ++ Nat.repr k ++ ")"

end TYTWebviewManager

/-! ## CommandHandler (src/commands/CommandHandler.ts) and
CommandError (src/errors/CommandError.ts) -/

namespace CommandHandler

/-- Source `CommandError` (src/errors/CommandError.ts): message, the `commandId`
it carries as context, and the caught underlying error. -/
structure CommandError (ε : Type) where
  message : String
  commandId : String
  error : ε

/-- The observable outcome of one `handleOpenGame` call: the information
messages and error messages shown to the user, and the returned or thrown
result. -/
structure HandlerOutput (ε : Type) where
  infoMessages : List String
  errorMessages : List String
  result : Except (CommandError ε) Unit

/-- Source `CommandHandler.handleOpenGame` (CommandHandler.ts:11-31).
`createResult` is the outcome of `this.webviewManager.createGamePanel()`
(`Except.error` when it throws).  On success the panel is revealed and
nothing is thrown; on failure the handler builds a `CommandError` carrying
the command id `takeYourTime.openGame`, shows one generic error message and
re-throws the wrapped error. -/
def handleOpenGame {ε : Type} (createResult : Except ε TYTWebviewManager.CreateResult) :
    HandlerOutput ε :=
  match createResult with
  | .ok _ =>
    ⟨["Opening Take Your Time game..."], [], .ok ()⟩
  | .error e =>
    ⟨["Opening Take Your Time game..."],
     ["Failed to open Take Your Time game. Please try again."],
     .error ⟨"Failed to open game panel", "takeYourTime.openGame", e⟩⟩

end CommandHandler

/-! ## Theorems: helper lemmas -/

theorem replaceAll_append (c : Char) (rep : List Char) (a b : List Char) :
    replaceAll c rep (a ++ b) = replaceAll c rep a ++ replaceAll c rep b := by
  induction a with
  | nil => rfl
  | cons d t ih => simp [replaceAll, ih]

namespace WebviewContentGenerator

theorem escapeChars_append (a b : List Char) :
    escapeChars (a ++ b) = escapeChars a ++ escapeChars b := by
  simp [escapeChars, replaceAll_append]

theorem escapeChars_single (d : Char) : escapeChars [d] = escChar d := by
  by_cases h1 : d = '&'
  · subst h1; decide
  by_cases h2 : d = '<'
  · subst h2; decide
  by_cases h3 : d = '>'
  · subst h3; decide
  by_cases h4 : d = quoteChar
  · subst h4; decide
  by_cases h5 : d = aposChar
  · subst h5; decide
  simp [escapeChars, replaceAll, escChar, h1, h2, h3, h4, h5]

/-- The five sequential replaces act as a single character-wise escape. -/
theorem escapeChars_eq_flatMap (l : List Char) :
    escapeChars l = l.flatMap escChar := by
  induction l with
  | nil => rfl
  | cons d t ih =>
    have h : d :: t = [d] ++ t := rfl
    rw [h, escapeChars_append, escapeChars_single, List.flatMap_append, ih]
    simp

theorem escChar_amp : escChar '&' = '&' :: 'a' :: 'm' :: 'p' :: ';' :: [] := by decide

theorem escChar_lt : escChar '<' = '&' :: 'l' :: 't' :: ';' :: [] := by decide

theorem escChar_gt : escChar '>' = '&' :: 'g' :: 't' :: ';' :: [] := by decide

theorem escChar_quot :
    escChar quoteChar = '&' :: 'q' :: 'u' :: 'o' :: 't' :: ';' :: [] := by decide

theorem escChar_apos :
    escChar aposChar = '&' :: '#' :: '0' :: '3' :: '9' :: ';' :: [] := by decide

theorem decode_amp (r : List Char) :
    decode ('&' :: 'a' :: 'm' :: 'p' :: ';' :: r) = (decode r).map (fun l => '&' :: l) := rfl

theorem decode_lt (r : List Char) :
    decode ('&' :: 'l' :: 't' :: ';' :: r) = (decode r).map (fun l => '<' :: l) := rfl

theorem decode_gt (r : List Char) :
    decode ('&' :: 'g' :: 't' :: ';' :: r) = (decode r).map (fun l => '>' :: l) := rfl

theorem decode_quot (r : List Char) :
    decode ('&' :: 'q' :: 'u' :: 'o' :: 't' :: ';' :: r) =
      (decode r).map (fun l => quoteChar :: l) := rfl

theorem decode_apos (r : List Char) :
    decode ('&' :: '#' :: '0' :: '3' :: '9' :: ';' :: r) =
      (decode r).map (fun l => aposChar :: l) := rfl

set_option maxHeartbeats 2000000 in
theorem decode_other (c : Char) (r : List Char) (h : c ≠ '&') :
    decode (c :: r) = (decode r).map (fun l => c :: l) := by
  rw [decode.eq_def]
  split
  all_goals first
    | rfl
    | simp_all

/-- The escape code is uniquely decodable: `decode` inverts `escapeChars`. -/
theorem decode_escape (l : List Char) : decode (l.flatMap escChar) = some l := by
  induction l with
  | nil => rfl
  | cons d t ih =>
    rw [List.flatMap_cons]
    by_cases h1 : d = '&'
    · subst h1
      rw [escChar_amp]
      simp only [List.cons_append, List.nil_append, decode_amp, ih]
      rfl
    by_cases h2 : d = '<'
    · subst h2
      rw [escChar_lt]
      simp only [List.cons_append, List.nil_append, decode_lt, ih]
      rfl
    by_cases h3 : d = '>'
    · subst h3
      rw [escChar_gt]
      simp only [List.cons_append, List.nil_append, decode_gt, ih]
      rfl
    by_cases h4 : d = quoteChar
    · subst h4
      rw [escChar_quot]
      simp only [List.cons_append, List.nil_append, decode_quot, ih]
      rfl
    by_cases h5 : d = aposChar
    · subst h5
      rw [escChar_apos]
      simp only [List.cons_append, List.nil_append, decode_apos, ih]
      rfl
    · have he : escChar d = [d] := by simp [escChar, h1, h2, h3, h4, h5]
      rw [he, List.singleton_append, decode_other d _ h1, ih]
      rfl

/-- Every character emitted by the escape code is raw-markup free: it is
neither `<` nor `>` nor `"` nor `'`. -/
theorem mem_escChar (c d : Char) (h : d ∈ escChar c) :
    d ≠ '<' ∧ d ≠ '>' ∧ d ≠ quoteChar ∧ d ≠ aposChar := by
  unfold escChar at h
  split_ifs at h with h1 h2 h3 h4 h5
  · fin_cases h <;> decide
  · fin_cases h <;> decide
  · fin_cases h <;> decide
  · fin_cases h <;> decide
  · fin_cases h <;> decide
  · rw [List.mem_singleton] at h
    subst h
    exact ⟨h2, h3, h4, h5⟩

/-- Every character emitted by the escape code is distinct from `<`. -/
theorem mem_escChar_ne_lt (c d : Char) (h : d ∈ escChar c) : d ≠ '<' :=
  (mem_escChar c d h).1

end WebviewContentGenerator

/-! ## Theorems: decimal representation -/

theorem digitChar_sub48 (d : Nat) (h : d < 10) : (Nat.digitChar d).toNat - 48 = d := by
  interval_cases d <;> decide

theorem digitsVal_toDigitsCore (fuel : Nat) :
    ∀ n ds, n < fuel → digitsVal (Nat.toDigitsCore 10 fuel n ds) 0 = digitsVal ds n := by
  induction fuel with
  | zero => intro n ds h; omega
  | succ fuel ih =>
    intro n ds h
    by_cases h0 : n / 10 = 0
    · rw [Nat.toDigitsCore]
      simp only [h0, if_true, reduceIte]
      show digitsVal ds (10 * 0 + ((Nat.digitChar (n % 10)).toNat - 48)) = digitsVal ds n
      rw [digitChar_sub48 (n % 10) (Nat.mod_lt n (by omega))]
      congr 1
      omega
    · rw [Nat.toDigitsCore]
      simp only [h0, reduceIte]
      have hlt : n / 10 < fuel := by
        have h1 : n / 10 < n := Nat.div_lt_self (by omega) (by omega)
        omega
      rw [ih (n / 10) (Nat.digitChar (n % 10) :: ds) hlt]
      show digitsVal ds (10 * (n / 10) + ((Nat.digitChar (n % 10)).toNat - 48)) = digitsVal ds n
      rw [digitChar_sub48 (n % 10) (Nat.mod_lt n (by omega))]
      congr 1
      omega

/-- Injectivity: `Nat.repr` (the embedding of JavaScript decimal interpolation) is
injective. -/
theorem natRepr_injective (m n : Nat) (h : Nat.repr m = Nat.repr n) : m = n := by
  have hd : (Nat.toDigits 10 m) = (Nat.toDigits 10 n) := by
    have := congrArg String.data h
    simpa [Nat.repr, List.asString] using this
  have hm : digitsVal (Nat.toDigitsCore 10 (m + 1) m []) 0 = m :=
    digitsVal_toDigitsCore (m + 1) m [] (by omega)
  have hn : digitsVal (Nat.toDigitsCore 10 (n + 1) n []) 0 = n :=
    digitsVal_toDigitsCore (n + 1) n [] (by omega)
  have hm' : Nat.toDigits 10 m = Nat.toDigitsCore 10 (m + 1) m [] := rfl
  have hn' : Nat.toDigits 10 n = Nat.toDigitsCore 10 (n + 1) n [] := rfl
  rw [hm', hn'] at hd
  rw [← hm, ← hn, hd]

/-! ## Theorems: string append -/

theorem stringAppend_data (a b : String) : (a ++ b).data = a.data ++ b.data :=
  String.data_append a b

theorem stringAppend_assoc (a b c : String) : a ++ b ++ c = a ++ (b ++ c) := by
  apply String.ext
  simp [stringAppend_data, List.append_assoc]

theorem stringAppend_left_cancel (a b c : String) (h : a ++ b = a ++ c) : b = c := by
  apply String.ext
  have := congrArg String.data h
  rw [stringAppend_data, stringAppend_data] at this
  exact List.append_cancel_left this

/-! ## Theorems: the `CleanLtI` invariant -/

theorem pair_infix_append (a b : List Char) (h : ['<', 'i'] <:+: a ++ b) :
    (['<', 'i'] <:+: a) ∨ (['<', 'i'] <:+: b) ∨
      (a.getLast? = some '<' ∧ b.head? = some 'i') := by
  induction a with
  | nil => right; left; simpa using h
  | cons c a ih =>
    rw [List.cons_append, List.infix_cons_iff] at h
    rcases h with hp | ht
    · rcases List.cons_prefix_cons.mp hp with ⟨hc, hp2⟩
      subst hc
      cases a with
      | nil =>
        right; right
        refine ⟨rfl, ?_⟩
        rw [List.nil_append] at hp2
        rcases hp2 with ⟨t, ht2⟩
        rw [← ht2]
        rfl
      | cons d a' =>
        rw [List.cons_append] at hp2
        rcases List.cons_prefix_cons.mp hp2 with ⟨hd, _⟩
        subst hd
        left
        exact ⟨[], a', rfl⟩
    · rcases ih ht with h1 | h2 | h3
      · rcases h1 with ⟨s1, t1, heq1⟩
        exact Or.inl ⟨c :: s1, t1, by rw [List.cons_append, List.cons_append, heq1]⟩
      · exact Or.inr (Or.inl h2)
      · right; right
        refine ⟨?_, h3.2⟩
        cases a with
        | nil => simp at h3
        | cons d t =>
          rw [List.getLast?_cons_cons]
          exact h3.1

theorem cleanLtI_nil : CleanLtI [] := by
  constructor
  · rintro ⟨s, t, he⟩
    simp at he
  · simp

theorem cleanLtI_append (a b : List Char) (ha : CleanLtI a) (hb : CleanLtI b) :
    CleanLtI (a ++ b) := by
  constructor
  · intro h
    rcases pair_infix_append a b h with h1 | h2 | h3
    · exact ha.1 h1
    · exact hb.1 h2
    · exact ha.2 h3.1
  · by_cases hbe : b = []
    · subst hbe
      rw [List.append_nil]
      exact ha.2
    · rw [List.getLast?_append_of_ne_nil _ hbe]
      exact hb.2

theorem cleanLtI_of_no_lt (l : List Char) (h : '<' ∉ l) : CleanLtI l := by
  constructor
  · rintro ⟨s, t, he⟩
    apply h
    rw [← he]
    simp
  · intro hl
    exact h (List.mem_of_getLast?_eq_some hl)

theorem cleanB_cons (c : Char) (rest : List Char)
    (h1 : c = '<' → rest = [] → False)
    (h2 : ∀ t, c = '<' → rest = 'i' :: t → False) :
    cleanB (c :: rest) = cleanB rest := by
  rw [cleanB.eq_def]
  split
  all_goals first
    | rfl
    | simp_all

theorem cleanB_sound (l : List Char) (h : cleanB l = true) : CleanLtI l := by
  induction l using cleanB.induct with
  | case1 => exact cleanLtI_nil
  | case2 => simp [cleanB] at h
  | case3 tail => simp [cleanB] at h
  | case4 c rest h1 h2 ih =>
    rw [cleanB_cons c rest h1 h2] at h
    have hrest := ih h
    have hcne : c = '<' → rest ≠ [] ∧ rest.head? ≠ some 'i' := by
      intro hc
      constructor
      · intro he; exact h1 hc he
      · intro hh
        cases rest with
        | nil => simp at hh
        | cons d t =>
          simp at hh
          exact h2 t hc (by rw [hh])
    constructor
    · intro hi
      rw [List.infix_cons_iff] at hi
      rcases hi with hp | hti
      · rcases List.cons_prefix_cons.mp hp with ⟨hc, hp2⟩
        rcases hcne hc.symm with ⟨hne, hhd⟩
        apply hhd
        cases rest with
        | nil => exact absurd rfl hne
        | cons d t =>
          rcases List.cons_prefix_cons.mp hp2 with ⟨hd, _⟩
          rw [← hd]
          rfl
      · exact hrest.1 hti
    · intro hl
      cases rest with
      | nil =>
        simp at hl
        exact h1 hl rfl
      | cons d t =>
        rw [List.getLast?_cons_cons] at hl
        exact hrest.2 hl

/-! ## Theorems: `String.join` and `CleanS` -/

theorem stringEmpty_append (s : String) : "" ++ s = s := by
  apply String.ext
  rw [stringAppend_data]
  rfl

theorem stringAppend_empty (s : String) : s ++ "" = s := by
  apply String.ext
  rw [stringAppend_data]
  simp [String.data]

theorem foldl_append_eq (l : List String) :
    ∀ a : String, l.foldl (fun r t => r ++ t) a = a ++ l.foldl (fun r t => r ++ t) "" := by
  induction l with
  | nil => intro a; exact (stringAppend_empty a).symm
  | cons x xs ih =>
    intro a
    show xs.foldl (fun r t => r ++ t) (a ++ x) = a ++ xs.foldl (fun r t => r ++ t) ("" ++ x)
    rw [ih (a ++ x), ih ("" ++ x), stringEmpty_append, stringAppend_assoc]

theorem stringJoin_nil : String.join ([] : List String) = "" := rfl

theorem stringJoin_cons (s : String) (l : List String) :
    String.join (s :: l) = s ++ String.join l := by
  show l.foldl (fun r t => r ++ t) ("" ++ s) = s ++ String.join l
  rw [stringEmpty_append]
  exact foldl_append_eq l s

theorem cleanS_append (a b : String) (ha : CleanS a) (hb : CleanS b) : CleanS (a ++ b) := by
  unfold CleanS at *
  rw [stringAppend_data]
  exact cleanLtI_append _ _ ha hb

theorem cleanS_of_no_lt (s : String) (h : '<' ∉ s.data) : CleanS s :=
  cleanLtI_of_no_lt _ h

theorem cleanS_of_cleanB (s : String) (h : cleanB s.data = true) : CleanS s :=
  cleanB_sound _ h

theorem cleanS_empty : CleanS "" :=
  cleanLtI_nil

namespace WebviewContentGenerator

theorem escapeHtml_data (s : String) : (escapeHtml s).data = s.data.flatMap escChar := by
  show escapeChars s.data = _
  exact escapeChars_eq_flatMap s.data

theorem escapeHtml_no_lt (s : String) : '<' ∉ (escapeHtml s).data := by
  intro hmem
  rw [escapeHtml_data] at hmem
  rcases List.mem_flatMap.mp hmem with ⟨c, _, hc⟩
  exact mem_escChar_ne_lt c '<' hc rfl

theorem cleanS_escapeHtml (s : String) : CleanS (escapeHtml s) :=
  cleanS_of_no_lt _ (escapeHtml_no_lt s)

theorem cleanS_generateCSP (c : String) (h : '<' ∉ c.data) : CleanS (generateCSP c) := by
  unfold generateCSP
  exact cleanS_append _ _
    (cleanS_append _ _ (cleanS_of_cleanB _ (by decide)) (cleanS_of_no_lt _ h))
    (cleanS_of_cleanB _ (by decide))

set_option maxRecDepth 100000 in
theorem cleanS_getStyles : CleanS getStyles :=
  cleanS_of_cleanB _ (by decide)

set_option maxRecDepth 100000 in
theorem cleanS_getScript (u : String) : CleanS (getScript u) := by
  unfold getScript
  exact cleanS_append _ _
    (cleanS_append _ _ (cleanS_of_cleanB _ (by decide)) (cleanS_escapeHtml u))
    (cleanS_of_cleanB _ (by decide))

theorem cleanS_optionTag (u : String) (p : GamePreset) : CleanS (optionTag u p) := by
  unfold optionTag
  split_ifs
  all_goals repeat' apply cleanS_append
  all_goals first
    | exact cleanS_escapeHtml _
    | exact cleanS_empty
    | exact cleanS_of_cleanB _ (by decide)

theorem cleanS_options (u : String) (presets : List GamePreset) :
    CleanS (String.join (presets.map (optionTag u))) := by
  induction presets with
  | nil => exact cleanS_empty
  | cons p rest ih =>
    rw [List.map_cons, stringJoin_cons]
    exact cleanS_append _ _ (cleanS_optionTag u p) ih

theorem blockedBg_no_lt (u : String) (res : Option Resources) (hres : ResourcesClean res) :
    '<' ∉ (blockedBg u res).1.data := by
  unfold blockedBg
  cases res with
  | none => split_ifs <;> simp_all
  | some r =>
    unfold ResourcesClean at hres
    split_ifs <;> simp_all

theorem cleanS_blockedBg_title (u : String) (res : Option Resources) :
    CleanS (blockedBg u res).2 := by
  unfold blockedBg
  split_ifs
  · exact cleanS_of_cleanB "Mario Games Preview" (by decide)
  · exact cleanS_of_cleanB "CrazyGames Preview" (by decide)
  · exact cleanS_of_cleanB "External Browser Required" (by decide)

theorem cleanS_bgStyleFor (bgUri : String) (h : '<' ∉ bgUri.data) : CleanS (bgStyleFor bgUri) := by
  unfold bgStyleFor
  split_ifs
  all_goals repeat' apply cleanS_append
  all_goals first
    | exact cleanS_of_no_lt _ h
    | exact cleanS_of_cleanB _ (by decide)

theorem cleanS_mainContentBlocked (u : String) (res : Option Resources)
    (hres : ResourcesClean res) : CleanS (mainContentBlocked u res) := by
  unfold mainContentBlocked
  repeat' first
    | exact cleanS_bgStyleFor _ (blockedBg_no_lt u res hres)
    | exact cleanS_blockedBg_title u res
    | exact cleanS_escapeHtml _
    | apply cleanS_append
  all_goals exact cleanS_of_cleanB _ (by decide)

seal generateCSP getStyles getScript mainContentBlocked mainContentIframe escapeHtml String.join in
set_option maxRecDepth 100000 in
theorem cleanS_generate_blocked (cspSource u : String) (presets : List GamePreset)
    (res : Option Resources) (nonce : String)
    (hb : isBlocked u = true) (hcsp : '<' ∉ cspSource.data) (hnonce : '<' ∉ nonce.data)
    (hres : ResourcesClean res) :
    CleanS (generate cspSource u presets res nonce) := by
  simp only [generate, hb, eq_self_iff_true, if_true]
  repeat' apply cleanS_append
  all_goals first
    | exact cleanS_generateCSP _ hcsp
    | exact cleanS_getStyles
    | exact cleanS_options u presets
    | exact cleanS_mainContentBlocked u res hres
    | exact cleanS_escapeHtml _
    | exact cleanS_getScript u
    | exact cleanS_of_no_lt _ hnonce
    | exact cleanS_of_cleanB _ (by decide)

theorem no_iframe_of_cleanS (s : String) (h : CleanS s) :
    ¬ ("<iframe".data <:+: s.data) := by
  intro hi
  apply h.1
  have hpre : ∃ t0, ['<', 'i'] ++ t0 = "<iframe".data := ⟨['f', 'r', 'a', 'm', 'e'], by decide⟩
  rcases hpre with ⟨t0, hpt⟩
  rcases hi with ⟨s1, t1, hit⟩
  refine ⟨s1, t0 ++ t1, ?_⟩
  rw [← hit, ← hpt]
  simp [List.append_assoc]

end WebviewContentGenerator

/-! ## Theorems: decompositions of the generated document -/

namespace WebviewContentGenerator

/-- The generated document splits around the interpolated nonce. -/
theorem generate_nonce_decomp (cspSource gameUrl : String) (gamePresets : List GamePreset)
    (resources : Option Resources) (nonce : String) :
    generate cspSource gameUrl gamePresets resources nonce =
      generatePreNonce cspSource gameUrl gamePresets resources ++ nonce ++
        generatePostNonce gameUrl := by
  simp only [generate, generatePreNonce, generatePostNonce, stringAppend_assoc]

/-- The generated document splits around the `mainContent` block. -/
theorem generate_main_decomp (cspSource gameUrl : String) (gamePresets : List GamePreset)
    (resources : Option Resources) (nonce : String) :
    generate cspSource gameUrl gamePresets resources nonce =
      generatePreMain cspSource gameUrl gamePresets ++
        (if isBlocked gameUrl then mainContentBlocked gameUrl resources
         else mainContentIframe gameUrl) ++
        generatePostMain gameUrl nonce := by
  simp only [generate, generatePreMain, generatePostMain, stringAppend_assoc]

end WebviewContentGenerator

/-! ## Theorems: the template consumes external strings only escaped -/

namespace WebviewContentGenerator

theorem optionTag_eq_fromEscaped (u : String) (p : GamePreset) :
    optionFromEscaped (escapeHtml p.url) (p.url == u) (escapeHtml p.name) = optionTag u p := by
  unfold optionFromEscaped optionTag
  by_cases h : p.url = u
  · simp [h]
  · simp [h]

theorem mainContent_eq_fromEscaped (u : String) (res : Option Resources) :
    (if isBlocked u then mainContentBlockedFromEscaped (escapeHtml u) (blockedBg u res).1 (blockedBg u res).2
     else mainContentIframeFromEscaped (escapeHtml u)) =
      (if isBlocked u then mainContentBlocked u res else mainContentIframe u) := by
  by_cases hb : isBlocked u = true
  · simp only [hb, if_true]
    unfold mainContentBlockedFromEscaped mainContentBlocked
    rfl
  · simp only [Bool.not_eq_true] at hb
    simp only [hb, Bool.false_eq_true, if_false]
    rfl

/-- Factorisation: `generate` factors through `generateFromEscaped`: every interpolation of
the target URL, a preset URL or a preset label happens on the
`escapeHtml`-image of that string. -/
theorem generate_eq_fromEscaped (cspSource u : String) (presets : List GamePreset)
    (res : Option Resources) (nonce : String) :
    generate cspSource u presets res nonce =
      generateFromEscaped cspSource (escapeHtml u)
        (presets.map (fun p => (escapeHtml p.url, p.url == u, escapeHtml p.name)))
        (isBlocked u) (blockedBg u res).1 (blockedBg u res).2 nonce := by
  have hopt : String.join
      ((presets.map (fun p => (escapeHtml p.url, p.url == u, escapeHtml p.name))).map
        (fun o => optionFromEscaped o.1 o.2.1 o.2.2)) =
      String.join (presets.map (optionTag u)) := by
    rw [List.map_map]
    apply congrArg
    apply List.map_congr_left
    intro p _
    exact optionTag_eq_fromEscaped u p
  simp only [generateFromEscaped, hopt, mainContent_eq_fromEscaped]
  rfl

end WebviewContentGenerator

/-! ## Theorems: the panel registry -/

namespace TYTWebviewManager

theorem mapSet_fresh (k : String) (v : PanelData) (l : List (String × PanelData))
    (h : ∀ e ∈ l, e.1 ≠ k) : mapSet k v l = l ++ [(k, v)] := by
  unfold mapSet
  rw [if_neg]
  intro hany
  rcases List.any_eq_true.mp hany with ⟨e, he, hek⟩
  exact h e he (by simpa using hek)

theorem run_creates (cfg : ExtensionConfig.Config) (cspSource : String) (res : Option Resources) :
    ∀ (nonces : List String) (st : ManagerState),
      (∀ e ∈ st.panels, ∃ i, 1 ≤ i ∧ i ≤ st.panelCounter ∧ e.1 = "tyt-panel-" ++ Nat.repr i) →
      (run cfg cspSource res st (nonces.map TraceOp.create)).panels.map
          (fun e => (e.1, e.2.title)) =
        st.panels.map (fun e => (e.1, e.2.title)) ++
          (List.range' (st.panelCounter + 1) nonces.length).map
            (fun k => ("tyt-panel-" ++ Nat.repr k, titleFor k)) ∧
      (run cfg cspSource res st (nonces.map TraceOp.create)).panelCounter =
        st.panelCounter + nonces.length := by
  intro nonces
  induction nonces with
  | nil =>
    intro st _
    constructor
    · simp [run, List.range']
    · simp [run]
  | cons nonce rest ih =>
    intro st hInv
    have hfresh : ∀ e ∈ st.panels, e.1 ≠ "tyt-panel-" ++ Nat.repr (st.panelCounter + 1) := by
      intro e he heq
      rcases hInv e he with ⟨i, hi1, hi2, hie⟩
      rw [hie] at heq
      have := natRepr_injective i (st.panelCounter + 1) (stringAppend_left_cancel _ _ _ heq)
      omega
    have hstep : step cfg cspSource res st (TraceOp.create nonce) =
        ⟨st.panels ++ [("tyt-panel-" ++ Nat.repr (st.panelCounter + 1),
           ⟨titleFor (st.panelCounter + 1),
            WebviewContentGenerator.generate cspSource cfg.gameUrl cfg.games res nonce⟩)],
         st.panelCounter + 1⟩ := by
      show (createGamePanel cfg cspSource res nonce st).state = _
      unfold createGamePanel
      dsimp only
      rw [mapSet_fresh _ _ _ hfresh]
      rfl
    have hInv' : ∀ e ∈ (step cfg cspSource res st (TraceOp.create nonce)).panels,
        ∃ i, 1 ≤ i ∧ i ≤ (step cfg cspSource res st (TraceOp.create nonce)).panelCounter ∧
          e.1 = "tyt-panel-" ++ Nat.repr i := by
      rw [hstep]
      dsimp only
      intro e he
      rcases List.mem_append.mp he with hold | hnew
      · rcases hInv e hold with ⟨i, hi1, hi2, hie⟩
        exact ⟨i, hi1, by omega, hie⟩
      · rw [List.mem_singleton] at hnew
        subst hnew
        exact ⟨st.panelCounter + 1, by omega, by omega, rfl⟩
    obtain ⟨hmap, hcnt⟩ := ih (step cfg cspSource res st (TraceOp.create nonce)) hInv'
    have hrun : run cfg cspSource res st ((nonce :: rest).map TraceOp.create) =
        run cfg cspSource res (step cfg cspSource res st (TraceOp.create nonce))
          (rest.map TraceOp.create) := rfl
    constructor
    · rw [hrun, hmap, hstep]
      simp only [List.map_append, List.map_cons, List.map_nil, List.length_cons]
      rw [List.range'_succ]
      simp [List.append_assoc, titleFor]
    · rw [hrun, hcnt, hstep]
      dsimp only
      simp
      omega

theorem createdIds_spec (cfg : ExtensionConfig.Config) (cspSource : String)
    (res : Option Resources) :
    ∀ (ops : List TraceOp) (st : ManagerState),
      createdIds cfg cspSource res st ops =
        (List.range' (st.panelCounter + 1) (countCreates ops)).map
          (fun k => "tyt-panel-" ++ Nat.repr k) := by
  intro ops
  induction ops with
  | nil => intro st; rfl
  | cons op rest ih =>
    intro st
    cases op with
    | create nonce =>
      show (createGamePanel cfg cspSource res nonce st).panelId ::
          createdIds cfg cspSource res
            (step cfg cspSource res st (TraceOp.create nonce)) rest = _
      rw [ih]
      show ("tyt-panel-" ++ Nat.repr (st.panelCounter + 1)) ::
          (List.range' ((st.panelCounter + 1) + 1) (countCreates rest)).map
            (fun k => "tyt-panel-" ++ Nat.repr k) =
        (List.range' (st.panelCounter + 1) (countCreates rest + 1)).map
          (fun k => "tyt-panel-" ++ Nat.repr k)
      rw [List.range'_succ]
      simp
    | notifyDispose pid =>
      show createdIds cfg cspSource res
          (step cfg cspSource res st (TraceOp.notifyDispose pid)) rest = _
      rw [ih]
      rfl
    | disposeAllOp =>
      show createdIds cfg cspSource res
          (step cfg cspSource res st TraceOp.disposeAllOp) rest = _
      rw [ih]
      rfl

theorem panelId_injective : Function.Injective (fun k => "tyt-panel-" ++ Nat.repr k) := by
  intro m n h
  exact natRepr_injective m n (stringAppend_left_cancel _ _ _ h)

theorem mapDelete_of_mem (k : String) (v : PanelData) (l : List (String × PanelData))
    (hmem : (k, v) ∈ l) (hnd : (l.map Prod.fst).Nodup) :
    ∃ pre post, l = pre ++ (k, v) :: post ∧ mapDelete k l = pre ++ post := by
  rcases List.append_of_mem hmem with ⟨pre, post, rfl⟩
  refine ⟨pre, post, rfl, ?_⟩
  have hknp : k ∉ pre.map Prod.fst := by
    rw [List.map_append, List.map_cons] at hnd
    intro hk
    exact List.disjoint_of_nodup_append hnd hk (List.mem_cons_self _ _)
  unfold mapDelete
  rw [List.eraseP_append_right]
  · congr 1
    rw [List.eraseP_cons]
    simp
  · intro b hb
    simp only [beq_iff_eq]
    intro hbk
    exact hknp (hbk ▸ List.mem_map_of_mem Prod.fst hb)

end TYTWebviewManager

/-! ## Claim theorems -/

/-- C10: the HTML escaping function is injective — two distinct input
strings never collapse to the same escaped text (each raw `&` is itself
escaped, so the five replacement sequences are uniquely decodable). -/
theorem c10_escapeHtml_injective (s t : String)
    (h : WebviewContentGenerator.escapeHtml s = WebviewContentGenerator.escapeHtml t) :
    s = t := by
  have hd := congrArg String.data h
  rw [WebviewContentGenerator.escapeHtml_data, WebviewContentGenerator.escapeHtml_data] at hd
  have hdec := congrArg WebviewContentGenerator.decode hd
  rw [WebviewContentGenerator.decode_escape, WebviewContentGenerator.decode_escape] at hdec
  exact String.ext (Option.some.inj hdec)

theorem c10_escapeHtml_injective_witness : ("a&<b" : String) = "a&<b" :=
  c10_escapeHtml_injective "a&<b" "a&<b" rfl

/-- C4: every externally-sourced string interpolated into the generated
document (target URL, preset URLs, preset labels) passes through
`escapeHtml` at every interpolation point (`generate` factors through
`generateFromEscaped`, which consumes those inputs only in escaped form),
and for every input the escaping function's output contains none of the raw
characters `<`, `>`, `"`, `'`. -/
theorem c4_escaping_at_every_interpolation :
    (∀ (cspSource u : String) (presets : List GamePreset) (res : Option Resources)
        (nonce : String),
      WebviewContentGenerator.generate cspSource u presets res nonce =
        WebviewContentGenerator.generateFromEscaped cspSource
          (WebviewContentGenerator.escapeHtml u)
          (presets.map (fun p => (WebviewContentGenerator.escapeHtml p.url, p.url == u,
            WebviewContentGenerator.escapeHtml p.name)))
          (WebviewContentGenerator.isBlocked u)
          (WebviewContentGenerator.blockedBg u res).1
          (WebviewContentGenerator.blockedBg u res).2 nonce) ∧
    (∀ s : String, ∀ d ∈ (WebviewContentGenerator.escapeHtml s).data,
      d ≠ '<' ∧ d ≠ '>' ∧ d ≠ quoteChar ∧ d ≠ aposChar) := by
  constructor
  · intro cspSource u presets res nonce
    exact WebviewContentGenerator.generate_eq_fromEscaped cspSource u presets res nonce
  · intro s d hd
    rw [WebviewContentGenerator.escapeHtml_data] at hd
    rcases List.mem_flatMap.mp hd with ⟨c, _, hc⟩
    exact WebviewContentGenerator.mem_escChar c d hc

theorem c4_escaping_at_every_interpolation_witness :
    'a' ≠ '<' ∧ 'a' ≠ '>' ∧ 'a' ≠ quoteChar ∧ 'a' ≠ aposChar :=
  c4_escaping_at_every_interpolation.2 "<a>" 'a' (by decide)

/-- C5: `generate` is a pure function of its inputs (the embedding is a
function, so two calls on identical inputs and an identical nonce draw are
byte-identical), and the document it returns splits as a fixed prefix, the
fresh nonce, and a fixed suffix — the prefix and suffix do not depend on the
nonce, so two outputs for identical inputs differ at most in the embedded
nonce token. -/
theorem c5_deterministic_up_to_nonce (cspSource u : String) (presets : List GamePreset)
    (res : Option Resources) (nonce : String) :
    WebviewContentGenerator.generate cspSource u presets res nonce =
      WebviewContentGenerator.generatePreNonce cspSource u presets res ++ nonce ++
        WebviewContentGenerator.generatePostNonce u :=
  WebviewContentGenerator.generate_nonce_decomp cspSource u presets res nonce

/-- C8: when the configured URL field fails schema validation, the loader
returns the hardcoded default configuration instead of raising, and a
reload replaces the cached configuration wholesale — the result never
depends on the previously cached value, so no partially-updated
configuration is observable. -/
theorem c8_invalid_url_falls_back_to_defaults (isURL : String → Bool)
    (raw : ExtensionConfig.RawSettings)
    (h : isURL (ExtensionConfig.orFalsy raw.gameUrl "https://onlinegames.io/") = false) :
    ExtensionConfig.loadConfig isURL raw = ExtensionConfig.defaultConfig ∧
    ∀ cached : ExtensionConfig.Config,
      ExtensionConfig.reload cached isURL raw = ExtensionConfig.loadConfig isURL raw := by
  constructor
  · simp only [ExtensionConfig.loadConfig, h, Bool.false_and, Bool.false_eq_true, if_false]
  · intro cached
    rfl

theorem c8_invalid_url_falls_back_to_defaults_witness :
    ExtensionConfig.loadConfig (fun _ => false) ⟨some "not a url", none, none, none⟩ =
      ExtensionConfig.defaultConfig :=
  (c8_invalid_url_falls_back_to_defaults (fun _ => false)
    ⟨some "not a url", none, none, none⟩ rfl).1

/-- C9: when panel creation throws, `handleOpenGame` wraps the failure in a
`CommandError` carrying the attempted command id `takeYourTime.openGame`
and the caught error, shows exactly one generic error notice, and re-raises
the wrapped error; when creation succeeds nothing is raised and no error
notice is shown. -/
theorem c9_open_game_error_boundary {ε : Type} (e : ε)
    (cr : TYTWebviewManager.CreateResult) :
    CommandHandler.handleOpenGame (Except.error e) =
      ⟨["Opening Take Your Time game..."],
       ["Failed to open Take Your Time game. Please try again."],
       Except.error ⟨"Failed to open game panel", "takeYourTime.openGame", e⟩⟩ ∧
    CommandHandler.handleOpenGame (@Except.ok ε TYTWebviewManager.CreateResult cr) =
      ⟨["Opening Take Your Time game..."], [], Except.ok ()⟩ :=
  ⟨rfl, rfl⟩

/-- C1 (counterexample): the `onDidReceiveMessage` handler of
src/webview/WebviewManager.ts performs no scheme validation: an
`openExternal` message whose URL has the `javascript:` scheme is delegated
to the host's external-open capability rather than discarded, and a
`switchGame` message with that URL re-renders the panel's document with the
`javascript:` URL embedded. -/
theorem c1_no_validation_counterexample :
    (TYTWebviewManager.handleMessage ExtensionConfig.defaultConfig "csp" none "n" ""
        ⟨"openExternal", "javascript:alert(1)"⟩).2 = ["javascript:alert(1)"] ∧
    (TYTWebviewManager.handleMessage ExtensionConfig.defaultConfig "csp" none "n" ""
        ⟨"switchGame", "javascript:alert(1)"⟩).1 =
      WebviewContentGenerator.generate "csp" "javascript:alert(1)"
        ExtensionConfig.defaultConfig.games none "n" ∧
    uriSchemeStrict "javascript:alert(1)" = some "javascript" := by
  refine ⟨rfl, rfl, ?_⟩
  decide

/-- C1 (amended): the validating handler variant (the repository's second
copy of `TYTWebviewManager.createGamePanel`) behaves as specified — a
`switchGame` message whose URL parses strictly with scheme http or https
re-renders the panel's document embedding the new URL, an `openExternal`
message with such a URL is delegated, and a message of either kind whose
URL has any other scheme, or fails strict parsing, is discarded: the
rendered content is unchanged and no external open is delegated.  The
handler in src/webview/WebviewManager.ts, by contrast, re-renders on every
`switchGame` and delegates every `openExternal`, regardless of scheme. -/
theorem c1_scheme_validation (cfg : ExtensionConfig.Config) (cspSource : String)
    (res : Option Resources) (nonce html url : String) :
    (∀ s, uriSchemeStrict url = some s → (s = "http" ∨ s = "https") →
      TYTWebviewManager.handleMessageValidated cfg cspSource res nonce html
          ⟨"switchGame", url⟩ =
        (WebviewContentGenerator.generate cspSource url cfg.games res nonce, []) ∧
      TYTWebviewManager.handleMessageValidated cfg cspSource res nonce html
          ⟨"openExternal", url⟩ = (html, [url])) ∧
    (∀ s, uriSchemeStrict url = some s → ¬(s = "http" ∨ s = "https") →
      TYTWebviewManager.handleMessageValidated cfg cspSource res nonce html
          ⟨"switchGame", url⟩ = (html, []) ∧
      TYTWebviewManager.handleMessageValidated cfg cspSource res nonce html
          ⟨"openExternal", url⟩ = (html, [])) ∧
    (uriSchemeStrict url = none →
      TYTWebviewManager.handleMessageValidated cfg cspSource res nonce html
          ⟨"switchGame", url⟩ = (html, []) ∧
      TYTWebviewManager.handleMessageValidated cfg cspSource res nonce html
          ⟨"openExternal", url⟩ = (html, [])) ∧
    (TYTWebviewManager.handleMessage cfg cspSource res nonce html ⟨"switchGame", url⟩ =
        (WebviewContentGenerator.generate cspSource url cfg.games res nonce, []) ∧
     TYTWebviewManager.handleMessage cfg cspSource res nonce html ⟨"openExternal", url⟩ =
        (html, [url])) := by
  refine ⟨?_, ?_, ?_, rfl, rfl⟩
  · intro s hs hok
    constructor <;>
      · simp only [TYTWebviewManager.handleMessageValidated, hs, reduceIte]
        try (split_ifs <;> simp_all)
  · intro s hs hbad
    constructor <;>
      · simp only [TYTWebviewManager.handleMessageValidated, hs, reduceIte]
        try (split_ifs <;> simp_all)
  · intro hs
    constructor <;>
      · simp only [TYTWebviewManager.handleMessageValidated, hs, reduceIte]
        try (split_ifs <;> simp_all)

theorem c1_scheme_validation_witness :
    TYTWebviewManager.handleMessageValidated ExtensionConfig.defaultConfig "csp" none "n" ""
        ⟨"switchGame", "javascript:alert(1)"⟩ = ("", []) ∧
    TYTWebviewManager.handleMessageValidated ExtensionConfig.defaultConfig "csp" none "n" ""
        ⟨"openExternal", "javascript:alert(1)"⟩ = ("", []) ∧
    TYTWebviewManager.handleMessageValidated ExtensionConfig.defaultConfig "csp" none "n" ""
        ⟨"switchGame", "https://playpager.com/"⟩ =
      (WebviewContentGenerator.generate "csp" "https://playpager.com/"
        ExtensionConfig.defaultConfig.games none "n", []) := by
  refine ⟨?_, ?_, ?_⟩
  · exact ((c1_scheme_validation ExtensionConfig.defaultConfig "csp" none "n" ""
      "javascript:alert(1)").2.1 "javascript" (by decide) (by decide)).1
  · exact ((c1_scheme_validation ExtensionConfig.defaultConfig "csp" none "n" ""
      "javascript:alert(1)").2.1 "javascript" (by decide) (by decide)).2
  · exact ((c1_scheme_validation ExtensionConfig.defaultConfig "csp" none "n" ""
      "https://playpager.com/").1 "https" (by decide) (Or.inr rfl)).1

/-- C3 (counterexample): the first panel created from a fresh manager gets
the id `tyt-panel-1` (the counter is incremented before use and the prefix
is `tyt-panel-`), not `panel-0` as the claim states. -/
theorem c3_first_id_counterexample :
    (TYTWebviewManager.createGamePanel ExtensionConfig.defaultConfig "csp" none "n"
        TYTWebviewManager.initialState).panelId = "tyt-panel-1" ∧
    (TYTWebviewManager.createGamePanel ExtensionConfig.defaultConfig "csp" none "n"
        TYTWebviewManager.initialState).panelId ≠ "panel-0" := by
  constructor
  · rfl
  · decide

/-- C3 (amended): over any sequence of manager events, the id of the k-th
created panel (1-based) is `"tyt-panel-" ++ k`: the counter starts at 0, is
incremented exactly once per creation — before use, so the first id carries
1 — and is never decremented by disposals, so an id is never reused even
after the panel it named has been disposed (the created ids are pairwise
distinct). -/
theorem c3_panel_ids_sequential (cfg : ExtensionConfig.Config) (cspSource : String)
    (res : Option Resources) (ops : List TYTWebviewManager.TraceOp) :
    TYTWebviewManager.createdIds cfg cspSource res TYTWebviewManager.initialState ops =
      (List.range' 1 (TYTWebviewManager.countCreates ops)).map
        (fun k => "tyt-panel-" ++ Nat.repr k) ∧
    (TYTWebviewManager.createdIds cfg cspSource res TYTWebviewManager.initialState ops).Nodup := by
  have h := TYTWebviewManager.createdIds_spec cfg cspSource res ops TYTWebviewManager.initialState
  constructor
  · simpa using h
  · rw [h]
    exact (List.nodup_range' _ _).map TYTWebviewManager.panelId_injective

/-- C6: creating N panels from a fresh manager yields N distinct tracked
registry entries (their ids are pairwise distinct), and the k-th entry's
title is "Take Your Time" for k = 1 and "Take Your Time (k)" for k ≥ 2. -/
theorem c6_titles_of_n_creates (cfg : ExtensionConfig.Config) (cspSource : String)
    (res : Option Resources) (nonces : List String) :
    ((TYTWebviewManager.run cfg cspSource res TYTWebviewManager.initialState
        (nonces.map TYTWebviewManager.TraceOp.create)).panels.map Prod.fst).Nodup ∧
    (TYTWebviewManager.run cfg cspSource res TYTWebviewManager.initialState
        (nonces.map TYTWebviewManager.TraceOp.create)).panels.map
          (fun e => (e.1, e.2.title)) =
      (List.range' 1 nonces.length).map
        (fun k => ("tyt-panel-" ++ Nat.repr k, TYTWebviewManager.titleFor k)) := by
  have h := (TYTWebviewManager.run_creates cfg cspSource res nonces
    TYTWebviewManager.initialState (by simp [TYTWebviewManager.initialState])).1
  rw [show TYTWebviewManager.initialState.panels = [] from rfl,
      show TYTWebviewManager.initialState.panelCounter = 0 from rfl] at h
  simp only [List.map_nil, List.nil_append, Nat.zero_add] at h
  constructor
  · have hfst : (TYTWebviewManager.run cfg cspSource res TYTWebviewManager.initialState
        (nonces.map TYTWebviewManager.TraceOp.create)).panels.map Prod.fst =
        ((TYTWebviewManager.run cfg cspSource res TYTWebviewManager.initialState
          (nonces.map TYTWebviewManager.TraceOp.create)).panels.map
            (fun e => (e.1, e.2.title))).map Prod.fst := by
      rw [List.map_map]
      rfl
    rw [hfst, h, List.map_map]
    exact (List.nodup_range' _ _).map
      (fun a b hab => TYTWebviewManager.panelId_injective hab)
  · exact h

/-- C7: the disposal notification for one tracked panel removes exactly
that panel's entry from the registry and leaves every other entry (with its
title) unchanged; `disposeAll` leaves the registry empty.  In particular,
after creating panels 1..3 and disposing the second, the registry holds
exactly the first and third entries with their original titles. -/
theorem c7_dispose_removes_exactly_one :
    (∀ (st : TYTWebviewManager.ManagerState) (panelId : String)
        (v : TYTWebviewManager.PanelData),
      (panelId, v) ∈ st.panels → (st.panels.map Prod.fst).Nodup →
      ∃ pre post, st.panels = pre ++ (panelId, v) :: post ∧
        (TYTWebviewManager.handleDispose panelId st).panels = pre ++ post ∧
        (TYTWebviewManager.handleDispose panelId st).panelCounter = st.panelCounter) ∧
    (∀ st : TYTWebviewManager.ManagerState,
      (TYTWebviewManager.disposeAll st).panels = []) ∧
    ((TYTWebviewManager.handleDispose "tyt-panel-2"
        (TYTWebviewManager.run ExtensionConfig.defaultConfig "csp" none
          TYTWebviewManager.initialState
          [TYTWebviewManager.TraceOp.create "n1", TYTWebviewManager.TraceOp.create "n2",
           TYTWebviewManager.TraceOp.create "n3"])).panels.map
        (fun e => (e.1, e.2.title)) =
      [("tyt-panel-1", "Take Your Time"), ("tyt-panel-3", "Take Your Time (3)")]) := by
  refine ⟨?_, fun st => rfl, ?_⟩
  · intro st panelId v hmem hnd
    obtain ⟨pre, post, heq, hdel⟩ :=
      TYTWebviewManager.mapDelete_of_mem panelId v st.panels hmem hnd
    exact ⟨pre, post, heq, hdel, rfl⟩
  · decide

theorem c7_dispose_removes_exactly_one_witness :
    ∃ pre post,
      [(("tyt-panel-1" : String), TYTWebviewManager.PanelData.mk "Take Your Time" "h")] =
        pre ++ ("tyt-panel-1", TYTWebviewManager.PanelData.mk "Take Your Time" "h") :: post ∧
      (TYTWebviewManager.handleDispose "tyt-panel-1"
        ⟨[("tyt-panel-1", TYTWebviewManager.PanelData.mk "Take Your Time" "h")], 1⟩).panels =
        pre ++ post ∧
      (TYTWebviewManager.handleDispose "tyt-panel-1"
        ⟨[("tyt-panel-1", TYTWebviewManager.PanelData.mk "Take Your Time" "h")], 1⟩).panelCounter =
        (⟨[("tyt-panel-1", TYTWebviewManager.PanelData.mk "Take Your Time" "h")], 1⟩ :
          TYTWebviewManager.ManagerState).panelCounter :=
  c7_dispose_removes_exactly_one.1
    ⟨[("tyt-panel-1", TYTWebviewManager.PanelData.mk "Take Your Time" "h")], 1⟩
    "tyt-panel-1" (TYTWebviewManager.PanelData.mk "Take Your Time" "h")
    (by simp) (by simp)

/-- C2 (counterexample): the denylist check of `generate` is a substring
check on the whole lowercased URL, not on its host.  For
`https://example.com/mario` the host `example.com` matches none of the
denylist fragments, so the claim requires an embedded frame whose `src` is
the escaped URL — but the renderer blocks it (the URL contains `mario`) and
the document contains no `<iframe` at all. -/
theorem c2_host_denylist_counterexample :
    hostOf "https://example.com/mario" = "example.com" ∧
    includes (toLowerCase (hostOf "https://example.com/mario")) "smbgames.be" = false ∧
    includes (toLowerCase (hostOf "https://example.com/mario")) "mario" = false ∧
    includes (toLowerCase (hostOf "https://example.com/mario")) "crazygames.com" = false ∧
    WebviewContentGenerator.isBlocked "https://example.com/mario" = true ∧
    ¬ ("<iframe".data <:+:
        (WebviewContentGenerator.generate "csp" "https://example.com/mario" [] none
          "nonce0").data) := by
  refine ⟨by decide, by decide, by decide, by decide, by decide, ?_⟩
  exact WebviewContentGenerator.no_iframe_of_cleanS _
    (WebviewContentGenerator.cleanS_generate_blocked "csp" "https://example.com/mario" [] none
      "nonce0" (by decide) (by decide) (by decide) (by simp [ResourcesClean]))

/-- C2 (amended): for every URL `u` and preset list, when `u`'s lowercased
text contains none of the denylist fragments (`smbgames.be`, `mario`,
`crazygames.com` — a substring check on the whole URL, not on the host),
the generated document embeds a frame element whose `src` attribute is the
escaped value of `u`; when the lowercased URL matches the denylist, the
document contains no frame element at all (`<iframe` does not occur) and
instead contains the "cannot be played inside VS Code" placeholder with an
open-externally call-to-action carrying the escaped `u`. -/
theorem c2_embed_or_placeholder (cspSource u nonce : String) (presets : List GamePreset)
    (res : Option Resources)
    (hcsp : '<' ∉ cspSource.data) (hnonce : '<' ∉ nonce.data) (hres : ResourcesClean res) :
    (WebviewContentGenerator.isBlocked u = false →
      WebviewContentGenerator.generate cspSource u presets res nonce =
        WebviewContentGenerator.generatePreMain cspSource u presets ++
          ("\n        <iframe \n          id=\"game-frame\"\n          src=\"" ++
            WebviewContentGenerator.escapeHtml u ++
            "\" \n          frameborder=\"0\" \n          allowfullscreen\n          sandbox=\"allow-scripts allow-same-origin allow-forms allow-popups\"\n        ></iframe>\n        \n        <div id=\"loading-overlay\">\n          <div class=\"loader\"></div>\n          <div>Loading Game Arcade...</div>\n        </div>") ++
          WebviewContentGenerator.generatePostMain u nonce) ∧
    (WebviewContentGenerator.isBlocked u = true →
      (¬ ("<iframe".data <:+:
          (WebviewContentGenerator.generate cspSource u presets res nonce).data)) ∧
      ∃ pre post,
        WebviewContentGenerator.generate cspSource u presets res nonce =
          pre ++
            ("</h2>\n                    <p>This game website cannot be played directly inside VS Code.</p>\n                    <button class=\"btn-primary\" onclick=\"openExternal('" ++
              WebviewContentGenerator.escapeHtml u ++
              "')\">\n                        🚀 Open in Browser\n                    </button>\n                    <div style=\"margin-top: 10px; font-size: 0.8em; opacity: 0.7\">\n                        ") ++
            post) := by
  constructor
  · intro hnb
    rw [WebviewContentGenerator.generate_main_decomp]
    simp only [hnb, Bool.false_eq_true, if_false]
    rfl
  · intro hb
    refine ⟨?_, ?_⟩
    · exact WebviewContentGenerator.no_iframe_of_cleanS _
        (WebviewContentGenerator.cleanS_generate_blocked cspSource u presets res nonce
          hb hcsp hnonce hres)
    · refine ⟨WebviewContentGenerator.generatePreMain cspSource u presets ++
        ("\n        <div class=\"blocked-container\" style=\"" ++
          WebviewContentGenerator.bgStyleFor (WebviewContentGenerator.blockedBg u res).1 ++
          "\">\n            <div class=\"blocked-overlay\">\n                <div class=\"blocked-content\">\n                    <div class=\"blocked-icon\">⚠️</div>\n                    <h2>" ++
          (WebviewContentGenerator.blockedBg u res).2),
        WebviewContentGenerator.escapeHtml u ++
          "\n                    </div>\n                </div>\n            </div>\n        </div>" ++
          WebviewContentGenerator.generatePostMain u nonce, ?_⟩
      rw [WebviewContentGenerator.generate_main_decomp]
      simp only [hb, reduceIte]
      simp only [WebviewContentGenerator.mainContentBlocked, stringAppend_assoc]

theorem c2_embed_or_placeholder_witness :
    WebviewContentGenerator.isBlocked "https://playpager.com/" = false ∧
    WebviewContentGenerator.generate "csp" "https://playpager.com/" [] none "n" =
      WebviewContentGenerator.generatePreMain "csp" "https://playpager.com/" [] ++
        ("\n        <iframe \n          id=\"game-frame\"\n          src=\"" ++
          WebviewContentGenerator.escapeHtml "https://playpager.com/" ++
          "\" \n          frameborder=\"0\" \n          allowfullscreen\n          sandbox=\"allow-scripts allow-same-origin allow-forms allow-popups\"\n        ></iframe>\n        \n        <div id=\"loading-overlay\">\n          <div class=\"loader\"></div>\n          <div>Loading Game Arcade...</div>\n        </div>") ++
        WebviewContentGenerator.generatePostMain "https://playpager.com/" "n" :=
  ⟨by decide,
   (c2_embed_or_placeholder "csp" "https://playpager.com/" "n" [] none
      (by decide) (by decide) (by simp [ResourcesClean])).1 (by decide)⟩
